import Mathlib

/-!
Verification development for the Lakewood sample-data generator
(`scripts/generate-sample-data.py`).

The script is embedded shallowly:

* The single process-wide pseudo-random source (`random.seed(42)` at
  startup, then every sampler drawing from the same module-level state)
  is modelled by an explicit state `RNG`: an infinite stream of natural
  draws plus a cursor.  Every sampler takes the state and returns the
  sampled value together with the advanced state, in exactly the order
  the Python code issues its draws.
* Python floats are modelled as exact rationals (`ℚ`);
  `random.random()` is a draw reduced mod `10^6` and scaled to `[0,1)`.
* `datetime` values are modelled as day numbers (days since 2000-01-01)
  via a Gregorian-calendar conversion `toDays`; `timedelta(days=n)`
  becomes plain addition/subtraction of day numbers, and datetime
  comparison becomes comparison of day numbers.
* Python `round` (banker's rounding, half to even) is `pyRound`.
* The unbounded identifier-collision `while` loops in `main` are
  totalized with an explicit fuel parameter, returning `none` exactly
  when the fuel is exhausted before a fresh identifier is found.
-/

/-- Explicit model of the process-wide random source: an infinite stream
of raw natural draws and a cursor.  Each primitive consumes one draw. -/
structure RNG where
  stream : Nat → Nat
  pos : Nat

/-- Consume one raw draw. -/
def RNG.next (g : RNG) : Nat × RNG :=
  (g.stream g.pos, { g with pos := g.pos + 1 })

/-- `random.randint(lo, hi)`: uniform integer in `[lo, hi]` (inclusive). -/
def randInt (lo hi : Nat) (g : RNG) : Nat × RNG :=
  let s := g.next
  (lo + s.1 % (hi + 1 - lo), s.2)

/-- `random.randint(lo, hi)` for possibly negative bounds
(used for the `randint(-2, 2)` contact-count jitter). -/
def randIntZ (lo hi : Int) (g : RNG) : Int × RNG :=
  let s := g.next
  (lo + (s.1 % (hi + 1 - lo).toNat : Nat), s.2)

/-- `random.random()`: a rational in `[0, 1)`, modelled with granularity
`10^6` on the raw draw. -/
def randFloat (g : RNG) : ℚ × RNG :=
  let s := g.next
  (((s.1 % 1000000 : Nat) : ℚ) / 1000000, s.2)

/-- `random.uniform(a, b) = a + (b-a) * random.random()`. -/
def uniformQ (a b : ℚ) (g : RNG) : ℚ × RNG :=
  let s := randFloat g
  (a + (b - a) * s.1, s.2)

/-- `random.choice(l)` on a non-empty literal list: uniform index into
the list (`d` is a fallback for the empty list, never reached on the
call sites of the script). -/
def choiceD {α : Type} (l : List α) (d : α) (g : RNG) : α × RNG :=
  let s := g.next
  (l.getD (s.1 % l.length) d, s.2)

/-- Cumulative selection used by `random.choices(..., weights=...)`:
walk the `(label, weight)` pairs subtracting weights from the scaled
unit draw, returning the first label whose weight exceeds the remainder. -/
def pickCum {α : Type} : List (α × Nat) → ℚ → α → α
  | [], _, d => d
  | (a, w) :: rest, r, d => if r < (w : ℚ) then a else pickCum rest (r - (w : ℚ)) d

/-- `random.choices(labels, weights=ws)[0]`: one unit draw scaled by the
total weight, then cumulative selection. -/
def weightedChoice {α : Type} (pairs : List (α × Nat)) (d : α) (g : RNG) : α × RNG :=
  let total : Nat := (pairs.map Prod.snd).sum
  let s := randFloat g
  (pickCum pairs (s.1 * (total : ℚ)) d, s.2)

/-- `random.sample(pool, k)`: sampling without replacement, modelled as
`k` uniform index draws each removing the drawn element from the pool. -/
def sampleNats : Nat → List Nat → RNG → List Nat × RNG
  | 0, _, g => ([], g)
  | k + 1, pool, g =>
    if pool.length = 0 then ([], g)
    else
      let s := g.next
      let i := s.1 % pool.length
      let s2 := sampleNats k (pool.eraseIdx i) s.2
      (pool.getD i 0 :: s2.1, s2.2)

/- ## Range lemmas for the random primitives -/

theorem randInt_ge (lo hi : Nat) (g : RNG) : lo ≤ (randInt lo hi g).1 := by
  simp only [randInt, RNG.next]
  omega

theorem randInt_le (lo hi : Nat) (g : RNG) (h : lo ≤ hi) : (randInt lo hi g).1 ≤ hi := by
  simp only [randInt, RNG.next]
  have hm : g.stream g.pos % (hi + 1 - lo) < hi + 1 - lo := Nat.mod_lt _ (by omega)
  omega

theorem randFloat_nonneg (g : RNG) : 0 ≤ (randFloat g).1 := by
  simp only [randFloat, RNG.next]
  positivity

theorem randFloat_lt_one (g : RNG) : (randFloat g).1 < 1 := by
  simp only [randFloat, RNG.next]
  rw [div_lt_one (by norm_num)]
  exact_mod_cast Nat.mod_lt _ (by norm_num)

theorem uniformQ_ge (a b : ℚ) (g : RNG) (h : a ≤ b) : a ≤ (uniformQ a b g).1 := by
  simp only [uniformQ]
  nlinarith [randFloat_nonneg g, randFloat_lt_one g]

theorem uniformQ_le (a b : ℚ) (g : RNG) (h : a ≤ b) : (uniformQ a b g).1 ≤ b := by
  simp only [uniformQ]
  nlinarith [randFloat_nonneg g, randFloat_lt_one g]

/- ## Dates

Day numbers: days elapsed since 2000-01-01.  `toDays y m d` converts a
Gregorian date (valid month/day, year ≥ 2000) to its day number. -/

/-- Gregorian leap-year test. -/
def isLeap (y : Nat) : Bool :=
  (y % 4 == 0 && y % 100 != 0) || y % 400 == 0

/-- Days in the months strictly before month `m` of a common year,
indexed 1–12 (index 0 unused). -/
def monthOffset (m : Nat) : Nat :=
  [0, 0, 31, 59, 90, 120, 151, 181, 212, 243, 273, 304, 334].getD m 334

/-- Days before month `m`, adjusted for leap years. -/
def daysBeforeMonth (leap : Bool) (m : Nat) : Nat :=
  monthOffset m + (if leap && 3 ≤ m then 1 else 0)

/-- Number of leap years `z` with `2000 ≤ z < y` (for `y ≥ 2000`). -/
def leapsBefore (y : Nat) : Nat :=
  (y - 1) / 4 - (y - 1) / 100 + (y - 1) / 400 - 484

/-- Day number of the Gregorian date `y-m-d` (days since 2000-01-01). -/
def toDays (y m d : Nat) : Nat :=
  365 * (y - 2000) + leapsBefore y + daysBeforeMonth (isLeap y) m + (d - 1)

/-- The fixed timeline anchor `datetime(2026, 1, 29)` of the script. -/
def anchorDays : Nat := toDays 2026 1 29

theorem anchorDays_eq : anchorDays = 9525 := by decide

theorem monthOffset_le (m : Nat) : monthOffset m ≤ 334 := by
  rcases m with _ | _ | _ | _ | _ | _ | _ | _ | _ | _ | _ | _ | m <;>
    simp [monthOffset, List.getD]

theorem daysBeforeMonth_le (leap : Bool) (m : Nat) : daysBeforeMonth leap m ≤ 335 := by
  have h := monthOffset_le m
  unfold daysBeforeMonth
  split <;> omega

/-- Any date in a year up to 2025 (with day ≤ 28) is before the anchor. -/
theorem toDays_le_of_year_le_2025 (y m d : Nat) (hy : y ≤ 2025) (hd : d ≤ 28) :
    toDays y m d ≤ anchorDays := by
  have h1 := daysBeforeMonth_le (isLeap y) m
  rw [anchorDays_eq]
  unfold toDays leapsBefore
  omega

/-- A January date (day ≤ 28) of the anchor year 2026 is before the anchor. -/
theorem toDays_2026_jan_le (d : Nat) (hd : d ≤ 28) : toDays 2026 1 d ≤ 9524 := by
  unfold toDays leapsBefore daysBeforeMonth monthOffset isLeap
  norm_num
  omega

/- ## Python `round`

`round` in Python 3 rounds half to even (banker's rounding). -/

/-- Python 3 `round(q)`: nearest integer, ties to even. -/
def pyRound (q : ℚ) : ℤ :=
  if q - (⌊q⌋ : ℚ) < 1/2 then ⌊q⌋
  else if 1/2 < q - (⌊q⌋ : ℚ) then ⌊q⌋ + 1
  else if ⌊q⌋ % 2 = 0 then ⌊q⌋ else ⌊q⌋ + 1

/-- Python `round(q, 2)`: round to two decimal places. -/
def pyRound2 (q : ℚ) : ℚ := (pyRound (q * 100) : ℚ) / 100

theorem pyRound_ge_floor (q : ℚ) : ⌊q⌋ ≤ pyRound q := by
  unfold pyRound
  split_ifs <;> omega

theorem pyRound_near (q : ℚ) : |(pyRound q : ℚ) - q| ≤ 1/2 := by
  have h1 : (⌊q⌋ : ℚ) ≤ q := Int.floor_le q
  have h2 : q < ⌊q⌋ + 1 := Int.lt_floor_add_one q
  unfold pyRound
  split_ifs <;> (rw [abs_le]; constructor <;> push_cast <;> linarith)

/-- The tiered rounding rule of `create_gift` (lines 513–519):
amounts over 10 000 to the nearest 100, over 1 000 to the nearest 10,
otherwise to two decimal places. -/
def roundGiftAmount (amount : ℚ) : ℚ :=
  if 10000 < amount then (pyRound (amount / 100) : ℚ) * 100
  else if 1000 < amount then (pyRound (amount / 10) : ℚ) * 10
  else pyRound2 amount

theorem roundGiftAmount_pos (a : ℚ) (h : 1/100 ≤ a) : 0 < roundGiftAmount a := by
  unfold roundGiftAmount
  split
  · have hf : (100 : ℤ) ≤ ⌊a / 100⌋ := by
      rw [Int.le_floor]; push_cast
      rw [le_div_iff (by norm_num)]
      linarith
    have := pyRound_ge_floor (a / 100)
    have : (100 : ℤ) ≤ pyRound (a / 100) := le_trans hf this
    have : (100 : ℚ) ≤ (pyRound (a / 100) : ℚ) := by exact_mod_cast this
    nlinarith
  · split
    · rename_i h1 h2
      have hf : (100 : ℤ) ≤ ⌊a / 10⌋ := by
        rw [Int.le_floor]; push_cast
        rw [le_div_iff (by norm_num)]
        linarith
      have := pyRound_ge_floor (a / 10)
      have : (100 : ℤ) ≤ pyRound (a / 10) := le_trans hf this
      have : (100 : ℚ) ≤ (pyRound (a / 10) : ℚ) := by exact_mod_cast this
      nlinarith
    · have hf : (1 : ℤ) ≤ ⌊a * 100⌋ := by
        rw [Int.le_floor]; push_cast; linarith
      have := pyRound_ge_floor (a * 100)
      have h1 : (1 : ℤ) ≤ pyRound (a * 100) := le_trans hf this
      have h2 : (1 : ℚ) ≤ (pyRound (a * 100) : ℚ) := by exact_mod_cast h1
      unfold pyRound2
      linarith

/- ## Data model -/

/-- A constituent record (the CSV row of `generate_constituent`, plus the
internal `_profile` tag, here `profile`).  The Python `prefix` field is
named `prefixName`. -/
structure Constituent where
  constituent_id : String
  prefixName : String
  first_name : String
  middle_name : String
  last_name : String
  suffix : String
  email : String
  phone : String
  address_line1 : String
  address_line2 : String
  city : String
  state : String
  postal_code : String
  country : String
  constituent_type : String
  class_year : Option Nat
  school_college : String
  estimated_capacity : ℚ
  capacity_source : String
  assigned_officer_id : String
  portfolio_tier : String
  profile : String
deriving Repr, DecidableEq

/-- A gift record (`create_gift`).  Dates are day numbers; boolean flags
are `Bool` (serialized as lowercase text, out of scope here). -/
structure Gift where
  gift_id : String
  constituent_id : String
  amount : ℚ
  gift_date : Nat
  gift_type : String
  fund_name : String
  fund_code : String
  campaign : String
  appeal : String
  recognition_amount : ℚ
  is_anonymous : Bool
  is_matching : Bool
  matching_company : String
  tribute_type : String
  tribute_name : String
deriving Repr, DecidableEq

/-- A contact record (`create_contact`).  `next_action_date = none`
models the empty string of a contact without a scheduled next action. -/
structure ContactRec where
  contact_id : String
  constituent_id : String
  contact_date : Nat
  contact_type : String
  subject : String
  notes : String
  outcome : String
  next_action : String
  next_action_date : Option Nat
deriving Repr, DecidableEq

/- ## Fixed reference tables (module-level constants of the script) -/

def FIRST_NAMES_MALE : List String := [
  "James", "John", "Robert", "Michael", "William", "David", "Richard", "Joseph",
  "Thomas", "Charles", "Christopher", "Daniel", "Matthew", "Anthony", "Mark",
  "Donald", "Steven", "Paul", "Andrew", "Joshua", "Kenneth", "Kevin", "Brian",
  "George", "Timothy", "Ronald", "Edward", "Jason", "Jeffrey", "Ryan", "Jacob",
  "Gary", "Nicholas", "Eric", "Jonathan", "Stephen", "Larry", "Justin", "Scott",
  "Brandon", "Benjamin", "Samuel", "Raymond", "Gregory", "Frank", "Alexander",
  "Patrick", "Jack", "Dennis", "Jerry", "Tyler", "Aaron", "Jose", "Adam", "Nathan"]

def FIRST_NAMES_FEMALE : List String := [
  "Mary", "Patricia", "Jennifer", "Linda", "Barbara", "Elizabeth", "Susan",
  "Jessica", "Sarah", "Karen", "Lisa", "Nancy", "Betty", "Margaret", "Sandra",
  "Ashley", "Kimberly", "Emily", "Donna", "Michelle", "Dorothy", "Carol",
  "Amanda", "Melissa", "Deborah", "Stephanie", "Rebecca", "Sharon", "Laura",
  "Cynthia", "Kathleen", "Amy", "Angela", "Shirley", "Anna", "Brenda", "Pamela",
  "Emma", "Nicole", "Helen", "Samantha", "Katherine", "Christine", "Debra",
  "Rachel", "Carolyn", "Janet", "Catherine", "Maria", "Heather", "Diane"]

def LAST_NAMES : List String := [
  "Smith", "Johnson", "Williams", "Brown", "Jones", "Garcia", "Miller", "Davis",
  "Rodriguez", "Martinez", "Hernandez", "Lopez", "Gonzalez", "Wilson", "Anderson",
  "Thomas", "Taylor", "Moore", "Jackson", "Martin", "Lee", "Perez", "Thompson",
  "White", "Harris", "Sanchez", "Clark", "Ramirez", "Lewis", "Robinson", "Walker",
  "Young", "Allen", "King", "Wright", "Scott", "Torres", "Nguyen", "Hill", "Flores",
  "Green", "Adams", "Nelson", "Baker", "Hall", "Rivera", "Campbell", "Mitchell",
  "Carter", "Roberts", "Chen", "Kim", "Park", "Patel", "Cohen", "Goldstein",
  "Schwartz", "Murphy", "O\x27Brien", "Sullivan", "Kelly", "Walsh", "McCarthy"]

def MIDDLE_NAMES : List String := [
  "A.", "B.", "C.", "D.", "E.", "F.", "G.", "H.", "J.", "K.", "L.",
  "M.", "N.", "P.", "R.", "S.", "T.", "W.", "Lynn", "Marie", "Ann",
  "Rose", "Jane", "Beth", "Lee", "Ray", "James", "Joseph", "Robert", ""]

def SUFFIXES : List String := ["Jr.", "Sr.", "II", "III", "IV", ""]

def FOUNDATION_NAMES : List String := [
  "The Baker Family Foundation", "Ward Foundation", "Campbell Foundation",
  "Morrison Family Trust", "Lakewood Community Foundation", "Henderson Foundation",
  "The Patricia & Robert Chen Fund", "Goldman Family Foundation", "Parker Foundation",
  "The Williams Family Charitable Trust", "Greenfield Foundation", "Taylor Family Fund",
  "The Sullivan Foundation", "Mitchell Charitable Trust", "Community First Foundation",
  "The Legacy Foundation", "Bright Futures Foundation", "Education Forward Foundation"]

def CORPORATION_NAMES : List String := [
  "Global Industries", "Tech Innovations Inc.", "Lakewood Medical Group",
  "First National Bank", "Regional Health Systems", "Pacific Manufacturing",
  "Apex Financial Services", "Summit Consulting Group", "Metro Construction Co.",
  "Evergreen Development", "Blue Sky Technologies", "Midwest Energy Partners",
  "Atlantic Insurance Group", "Valley Agricultural Co-op", "Precision Engineering LLC"]

def SCHOOLS : List String := [
  "College of Arts & Sciences", "School of Business", "School of Engineering",
  "School of Education", "School of Nursing", "School of Law", "Graduate School"]

def FUNDS : List (String × String) := [
  ("Annual Fund - Unrestricted", "FND-1001"),
  ("School of Business", "FND-2001"),
  ("School of Engineering", "FND-2002"),
  ("School of Law", "FND-2003"),
  ("School of Nursing", "FND-2004"),
  ("Scholarship Fund", "FND-3001"),
  ("Athletics", "FND-4001"),
  ("Capital Campaign - Building Excellence", "FND-5001"),
  ("Student Emergency Fund", "FND-6001"),
  ("Library Endowment", "FND-7001"),
  ("Faculty Research Fund", "FND-8001")]

def CAMPAIGNS : List String :=
  ["", "Scholarship Initiative", "Building Excellence Campaign", "Annual Giving"]

def APPEALS : List String := [
  "Annual Fund Drive", "Spring Appeal", "Year-End Appeal", "Giving Tuesday",
  "Reunion Giving", "President\x27s Circle", "Parent Appeal", "Faculty/Staff Campaign",
  "Phonathon", "Matching Gift", "Planned Giving", "Leadership Society"]

def CONTACT_SUBJECTS : List String := [
  "Introduction meeting", "Annual fund renewal", "Stewardship update",
  "Campus tour", "Event follow-up", "Gift agreement review", "Planned giving discussion",
  "Year-end appeal", "Reunion planning", "Recognition event invite",
  "Student impact report", "Capital campaign ask", "Estate planning conversation",
  "Faculty connection", "Alumni weekend planning", "Corporate partnership",
  "Giving Tuesday outreach", "Thank you call", "Major gift cultivation",
  "Scholarship recipient connection"]

def CONTACT_NOTES : List String := [
  "", "Great conversation about campus updates.", "Expressed interest in scholarship support.",
  "Considering increased support.", "Interested in naming opportunity.",
  "Asked about matching gift program.", "Wants to connect with students.",
  "Requested information about planned giving.", "Will follow up after board meeting.",
  "Left voicemail, awaiting callback.", "Discussed family foundation priorities.",
  "Shared impact of previous gift.", "Excited about new building project.",
  "Concerned about recent policy changes.", "Wants to visit campus this spring."]

def CITIES : List (String × String) := [
  ("Boston", "MA"), ("Cambridge", "MA"), ("Wellesley", "MA"), ("Worcester", "MA"),
  ("New York", "NY"), ("Manhattan", "NY"), ("Brooklyn", "NY"), ("Rochester", "NY"),
  ("Greenwich", "CT"), ("Darien", "CT"), ("Hartford", "CT"), ("Summit", "NJ"),
  ("Philadelphia", "PA"), ("Villanova", "PA"), ("Pittsburgh", "PA"),
  ("Washington", "DC"), ("McLean", "VA"), ("Fairfax", "VA"), ("Richmond", "VA"),
  ("Charlottesville", "VA"), ("Baltimore", "MD"), ("Potomac", "MD"), ("Bethesda", "MD"),
  ("Raleigh", "NC"), ("Durham", "NC"), ("Chapel Hill", "NC"), ("Cary", "NC"),
  ("Charlotte", "NC"), ("Atlanta", "GA"), ("Marietta", "GA"), ("Buckhead", "GA"),
  ("Miami", "FL"), ("Boca Raton", "FL"), ("Tampa", "FL"), ("Orlando", "FL"),
  ("Coral Gables", "FL"), ("Chicago", "IL"), ("Naperville", "IL"), ("Lake Forest", "IL"),
  ("Dallas", "TX"), ("Houston", "TX"), ("Fort Worth", "TX"), ("Austin", "TX"),
  ("Denver", "CO"), ("Cherry Hills Village", "CO"), ("Boulder", "CO"),
  ("Seattle", "WA"), ("Bellevue", "WA"), ("Mercer Island", "WA"), ("Sammamish", "WA"),
  ("San Francisco", "CA"), ("Palo Alto", "CA"), ("Los Angeles", "CA"), ("San Diego", "CA"),
  ("Phoenix", "AZ"), ("Scottsdale", "AZ"), ("Redmond", "WA"), ("Portland", "OR")]

def STREETS : List String := [
  "Main St", "Oak Ave", "Maple Dr", "Cedar Ln", "Pine St", "Elm St", "Park Blvd",
  "Lake Dr", "River Rd", "Hill Rd", "Valley Way", "Forest Ave", "Meadow Ln",
  "Spring St", "Garden St", "Cherry Ln", "Sunset Blvd", "Highland Ave",
  "Washington Ave", "Lincoln Blvd", "Ocean View Dr", "Willow St", "Birch Rd"]

/-- The two real gift officers of `GIFT_OFFICERS` (uuid, name, tier tag). -/
def john_officer : String × String × String :=
  ("1ac9d0ea-888d-48a4-b963-d2d61e96c073", "John Officer", "major")

def sarah_manager : String × String × String :=
  ("807c31b2-1052-48c8-8ff7-c26e17fa8e16", "Sarah Manager", "leadership")

/- ## Attribute samplers -/

/-- Zero-pad a number to width `w` (the Python format `{idx:05d}`). -/
def padZeros (w n : Nat) : String :=
  let s := toString n
  String.mk (List.replicate (w - s.length) '0') ++ s

/-- `generate_phone` (lines 205–208). -/
def generate_phone (g : RNG) : String × RNG :=
  let areaCodes : List String :=
    ["212", "617", "312", "415", "310", "202", "404", "713", "303", "206"]
  let s1 := choiceD areaCodes "" g
  let s2 := randInt 200 999 s1.2
  let s3 := randInt 1000 9999 s2.2
  ("(" ++ s1.1 ++ ") " ++ toString s2.1 ++ "-" ++ toString s3.1, s3.2)

/-- `generate_email` (lines 211–224). -/
def generate_email (firstName lastName : String) (g : RNG) : String × RNG :=
  let domains : List String :=
    ["gmail.com", "yahoo.com", "outlook.com", "icloud.com", "aol.com", "hotmail.com"]
  let fmts : List String := [
    firstName.toLower ++ "." ++ lastName.toLower,
    firstName.toLower ++ lastName.toLower,
    (firstName.take 1).toLower ++ lastName.toLower,
    firstName.toLower ++ (lastName.take 1).toLower,
    lastName.toLower ++ (firstName.take 1).toLower]
  let s1 := choiceD fmts "" g
  let s2 := choiceD domains "" s1.2
  (s1.1 ++ "@" ++ s2.1, s2.2)

/-- The address fields of a constituent row. -/
structure AddressRec where
  address_line1 : String
  address_line2 : String
  city : String
  state : String
  postal_code : String
  country : String
deriving Repr, DecidableEq

/-- The all-empty address used when the address is omitted. -/
def emptyAddress : AddressRec :=
  { address_line1 := "", address_line2 := "", city := "", state := "",
    postal_code := "", country := "" }

/-- `generate_address` (lines 227–245). -/
def generate_address (g : RNG) : AddressRec × RNG :=
  let s1 := choiceD CITIES ("", "") g
  let s2 := randInt 100 9999 s1.2
  let s3 := choiceD STREETS "" s2.2
  let s4 := randFloat s3.2
  let line2 :=
    if s4.1 < 25/100 then
      let s5 := randFloat s4.2
      if s5.1 < 1/2 then
        let s6 := randInt 1 999 s5.2
        ("Apt " ++ toString s6.1, s6.2)
      else
        let s6 := randInt 100 999 s5.2
        ("Suite " ++ toString s6.1, s6.2)
    else ("", s4.2)
  let s7 := randInt 10000 99999 line2.2
  ({ address_line1 := toString s2.1 ++ " " ++ s3.1,
     address_line2 := line2.1,
     city := s1.1.1, state := s1.1.2,
     postal_code := toString s7.1, country := "USA" }, s7.2)

/- ## Behavior profile selector -/

/-- The weighted profile table of `DonorProfile.create_random`. -/
def profileWeights : List (String × Nat) := [
  ("consistent_major", 3), ("consistent_leadership", 7), ("consistent_annual", 15),
  ("upgrading", 8), ("downgrading", 5), ("lybunt", 12), ("sybunt", 10),
  ("new_donor", 10), ("sporadic", 15), ("one_time", 10), ("never", 5)]

/-- Cumulative-sum selection over `(profile, weight)` pairs: the first
bucket whose cumulative weight reaches the draw wins (the fallback is
the `return DonorProfile("consistent_annual")` line, unreachable for
draws within the total weight). -/
def pickProfile : List (String × Nat) → Nat → String
  | [], _ => "consistent_annual"
  | (p, w) :: rest, r => if r ≤ w then p else pickProfile rest (r - w)

/-- `DonorProfile.create_random` (lines 178–202): uniform integer in
`[1, total weight]`, mapped through the cumulative sums. -/
def DonorProfile.create_random (g : RNG) : String × RNG :=
  let total : Nat := (profileWeights.map Prod.snd).sum
  let s := randInt 1 total g
  (pickProfile profileWeights s.1, s.2)

/- ## Constituent generator -/

/-- The name/email/class-year block of `generate_constituent`
(lines 267–303), bundled to keep the translation readable. -/
structure NameBlock where
  prefixName : String
  firstName : String
  middleName : String
  lastName : String
  suffix : String
  email : String
  classYear : Option Nat
  school : String
deriving Repr, DecidableEq

/-- Lines 267–303 of `generate_constituent`: organization name for
foundation/corporation types, sampled personal name otherwise. -/
def nameBlock (constType : String) (idx : Nat) (g : RNG) : NameBlock × RNG :=
  if constType == "foundation" then
    let orgName := FOUNDATION_NAMES.getD (idx % FOUNDATION_NAMES.length) ""
    let email := "grants@" ++ (((orgName.toLower.replace " " "").replace "the" "").take 20) ++ ".org"
    ({ prefixName := "", firstName := "", middleName := "", lastName := orgName,
       suffix := "", email := email, classYear := none, school := "" }, g)
  else if constType == "corporation" then
    let orgName := CORPORATION_NAMES.getD (idx % CORPORATION_NAMES.length) ""
    let email := "giving@" ++ (((orgName.toLower.replace " " "").replace "inc." "").replace "llc" "").take 15 ++ ".com"
    ({ prefixName := "", firstName := "", middleName := "", lastName := orgName,
       suffix := "", email := email, classYear := none, school := "" }, g)
  else
    let t1 := randFloat g
    let isFemale := t1.1 < 52/100
    let t2 := choiceD (if isFemale then FIRST_NAMES_FEMALE else FIRST_NAMES_MALE) "" t1.2
    let t3 := choiceD LAST_NAMES "" t2.2
    let t4 := randFloat t3.2
    let m5 := if t4.1 < 40/100 then choiceD MIDDLE_NAMES "" t4.2 else ("", t4.2)
    let t6 := randFloat m5.2
    let p7 :=
      if isFemale then
        if t6.1 < 1/2 then choiceD ["Mrs.", "Ms.", "Dr.", ""] "" t6.2 else ("", t6.2)
      else
        if t6.1 < 1/2 then choiceD ["Mr.", "Dr.", "Rev.", ""] "" t6.2 else ("", t6.2)
    let t8 := randFloat p7.2
    let s9 := if t8.1 < 5/100 then choiceD SUFFIXES "" t8.2 else ("", t8.2)
    let t10 := randFloat s9.2
    let e11 := if t10.1 < 85/100 then generate_email t2.1 t3.1 t10.2 else ("", t10.2)
    let cy :=
      if constType == "alumni" then
        let c12 := randInt 1960 2024 e11.2
        let s13 := choiceD SCHOOLS "" c12.2
        ((some c12.1, s13.1), s13.2)
      else ((none, ""), e11.2)
    ({ prefixName := p7.1, firstName := t2.1, middleName := m5.1, lastName := t3.1,
       suffix := s9.1, email := e11.1, classYear := cy.1.1, school := cy.1.2 }, cy.2)

/-- The capacity sampler of `generate_constituent` (lines 313–323):
five-bucket piecewise distribution, uniform within the bucket. -/
def sampleCapacity (g : RNG) : ℚ × RNG :=
  let c := randFloat g
  if c.1 < 60/100 then uniformQ 1000 25000 c.2
  else if c.1 < 85/100 then uniformQ 25000 100000 c.2
  else if c.1 < 95/100 then uniformQ 100000 500000 c.2
  else if c.1 < 99/100 then uniformQ 500000 2000000 c.2
  else uniformQ 2000000 10000000 c.2

/-- Tier/officer assignment of `generate_constituent` (lines 327–347):
capacity-driven portfolio assignment.  Returns `(officer, tier)`. -/
def portfolioAssign (capacity : ℚ) (g : RNG) :
    (Option (String × String × String) × String) × RNG :=
  if 500000 ≤ capacity then ((some john_officer, "major"), g)
  else if 100000 ≤ capacity then
    let s := choiceD [john_officer, sarah_manager] john_officer g
    ((some s.1, "leadership"), s.2)
  else if 25000 ≤ capacity then
    let s := choiceD [some sarah_manager, none] none g
    ((s.1, "leadership"), s.2)
  else if 5000 ≤ capacity then ((none, "annual"), g)
  else ((none, ""), g)

/-- `generate_constituent` (lines 248–367). -/
def generate_constituent (idx : Nat) (g : RNG) : Constituent × RNG :=
  let s1 := randFloat g
  let constType :=
    if s1.1 < 70/100 then "alumni"
    else if s1.1 < 82/100 then "parent"
    else if s1.1 < 88/100 then "friend"
    else if s1.1 < 94/100 then "foundation"
    else "corporation"
  let constituentId := "LU-" ++ padZeros 5 idx
  let nb := nameBlock constType idx s1.2
  let ph := randFloat nb.2
  let phone := if ph.1 < 75/100 then generate_phone ph.2 else ("", ph.2)
  let ad := randFloat phone.2
  let addr := if ad.1 < 90/100 then generate_address ad.2 else (emptyAddress, ad.2)
  let cap := sampleCapacity addr.2
  let src := choiceD ["WealthEngine", "iWave", "DonorSearch", "Manual Research", "Self-Reported"] "" cap.2
  let po := portfolioAssign cap.1 src.2
  let prof := DonorProfile.create_random po.2
  ({ constituent_id := constituentId,
     prefixName := nb.1.prefixName,
     first_name := nb.1.firstName,
     middle_name := nb.1.middleName,
     last_name := nb.1.lastName,
     suffix := nb.1.suffix,
     email := nb.1.email,
     phone := phone.1,
     address_line1 := addr.1.address_line1,
     address_line2 := addr.1.address_line2,
     city := addr.1.city,
     state := addr.1.state,
     postal_code := addr.1.postal_code,
     country := addr.1.country,
     constituent_type := constType,
     class_year := nb.1.classYear,
     school_college := nb.1.school,
     estimated_capacity := pyRound2 cap.1,
     capacity_source := src.1,
     assigned_officer_id := (po.1.1.map Prod.fst).getD "",
     portfolio_tier := po.1.2,
     profile := prof.1 }, prof.2)

/- ## Gift history synthesizer -/

/-- A gift identifier `f"G-{const_id}-{n}"`. -/
def mk_gift_id (cid : String) (n : Nat) : String := "G-" ++ cid ++ "-" ++ toString n

/-- The weighted 7-way gift-type categorical of `create_gift`. -/
def giftTypeWeights : List (String × Nat) := [
  ("Check", 30), ("Credit Card", 35), ("Cash", 10), ("Stock", 8),
  ("DAF", 10), ("Wire", 5), ("Pledge Payment", 2)]

/-- `create_gift` (lines 505–553). -/
def create_gift (constId : String) (giftDate : Nat) (amount : ℚ) (constType : String)
    (g : RNG) : Gift × RNG :=
  let s1 := weightedChoice giftTypeWeights "Check" g
  let amt := roundGiftAmount amount
  let s2 := choiceD FUNDS ("Annual Fund - Unrestricted", "FND-1001") s1.2
  let s3 := randFloat s2.2
  let isMatching := s3.1 < 5/100 && !(constType == "foundation" || constType == "corporation")
  let mc :=
    if isMatching then
      choiceD ["Microsoft", "Google", "Amazon", "JPMorgan Chase", "Bank of America",
        "Goldman Sachs"] "" s3.2
    else ("", s3.2)
  let s4 := randFloat mc.2
  let tribute := s4.1 < 3/100
  let tt := if tribute then choiceD ["In Memory Of", "In Honor Of"] "" s4.2 else ("", s4.2)
  let tn :=
    if tribute then
      let u1 := randFloat tt.2
      let honor := if u1.1 < 1/2 then "Professor " else "Dr. "
      let u2 := choiceD (FIRST_NAMES_FEMALE ++ FIRST_NAMES_MALE) "" u1.2
      let u3 := choiceD LAST_NAMES "" u2.2
      (honor ++ u2.1 ++ " " ++ u3.1, u3.2)
    else ("", tt.2)
  let s5 := randFloat tn.2
  let isAnon := s5.1 < 2/100
  let s6 := randInt 100 999 s5.2
  let s7 := choiceD CAMPAIGNS "" s6.2
  let s8 := choiceD APPEALS "" s7.2
  ({ gift_id := mk_gift_id constId s6.1,
     constituent_id := constId,
     amount := amt,
     gift_date := giftDate,
     gift_type := s1.1,
     fund_name := s2.1.1,
     fund_code := s2.1.2,
     campaign := s7.1,
     appeal := s8.1,
     recognition_amount := amt,
     is_anonymous := isAnon,
     is_matching := isMatching,
     matching_company := mc.1,
     tribute_type := tt.1,
     tribute_name := tn.1 }, s8.2)

/-- The `new_donor` gift loop (lines 399–404): the `i`-th gift is dated
`start + i * randint(60, 180)` with a fresh spacing draw every
iteration, breaking as soon as a computed date passes the anchor. -/
def newDonorLoop (startDay : Nat) (base : ℚ) (cid ctype : String) :
    Nat → Nat → RNG → List Gift × RNG
  | 0, _, g => ([], g)
  | n + 1, i, g =>
    let r := randInt 60 180 g
    let giftDate := startDay + i * r.1
    if anchorDays < giftDate then ([], r.2)
    else
      let u := uniformQ (8/10) (12/10) r.2
      let gf := create_gift cid giftDate (base * u.1) ctype u.2
      let rest := newDonorLoop startDay base cid ctype n (i + 1) gf.2
      (gf.1 :: rest.1, rest.2)

/-- One year's worth of gifts for the `lybunt`/`sybunt` profiles
(and, with `lo = 1/2, hi = 3/2`, a single `sporadic` gift):
`datetime(year, randint(1,12), randint(1,28))`, amount
`base * uniform(lo, hi)`. -/
def yearGifts (year : Nat) (base lo hi : ℚ) (cid ctype : String) :
    Nat → RNG → List Gift × RNG
  | 0, g => ([], g)
  | k + 1, g =>
    let m := randInt 1 12 g
    let d := randInt 1 28 m.2
    let u := uniformQ lo hi d.2
    let gf := create_gift cid (toDays year m.1 d.1) (base * u.1) ctype u.2
    let rest := yearGifts year base lo hi cid ctype k gf.2
    (gf.1 :: rest.1, rest.2)

/-- The `lybunt` year loop (lines 410–419): years `2025 - offset`,
stopping at the 2015 floor, 1–3 gifts per year. -/
def lybuntYearLoop (base : ℚ) (cid ctype : String) :
    Nat → Nat → RNG → List Gift × RNG
  | 0, _, g => ([], g)
  | n + 1, offset, g =>
    let year := 2025 - offset
    if year < 2015 then ([], g)
    else
      let k := randInt 1 3 g
      let gs := yearGifts year base (8/10) (12/10) cid ctype k.1 k.2
      let rest := lybuntYearLoop base cid ctype n (offset + 1) gs.2
      (gs.1 ++ rest.1, rest.2)

/-- The `sybunt` year loop (lines 424–433): years `lastYear - offset`,
stopping at the 2015 floor, 1–2 gifts per year. -/
def sybuntYearLoop (lastYear : Nat) (base : ℚ) (cid ctype : String) :
    Nat → Nat → RNG → List Gift × RNG
  | 0, _, g => ([], g)
  | n + 1, offset, g =>
    let year := lastYear - offset
    if year < 2015 then ([], g)
    else
      let k := randInt 1 2 g
      let gs := yearGifts year base (8/10) (12/10) cid ctype k.1 k.2
      let rest := sybuntYearLoop lastYear base cid ctype n (offset + 1) gs.2
      (gs.1 ++ rest.1, rest.2)

/-- The `sporadic` loop (lines 440–443): one gift in each sampled year. -/
def sporadicLoop (base : ℚ) (cid ctype : String) :
    List Nat → RNG → List Gift × RNG
  | [], g => ([], g)
  | y :: rest, g =>
    let gs := yearGifts y base (1/2) (3/2) cid ctype 1 g
    let r2 := sporadicLoop base cid ctype rest gs.2
    (gs.1 ++ r2.1, r2.2)

/-- One year's worth of gifts for the `upgrading`/`downgrading`/
`consistent_*` profiles (month forced to January in the anchor year
2026, dates past the anchor skipped by `continue`, amount
`base * mult * uniform(0.9, 1.1)`; the consistent profiles use
`mult = 1`). -/
def guardedYearGifts (year : Nat) (base mult : ℚ) (cid ctype : String) :
    Nat → RNG → List Gift × RNG
  | 0, g => ([], g)
  | k + 1, g =>
    let m := if year < 2026 then randInt 1 12 g else (1, g)
    let d := randInt 1 28 m.2
    let giftDate := toDays year m.1 d.1
    if anchorDays < giftDate then
      guardedYearGifts year base mult cid ctype k d.2
    else
      let u := uniformQ (9/10) (11/10) d.2
      let gf := create_gift cid giftDate (base * mult * u.1) ctype u.2
      let rest := guardedYearGifts year base mult cid ctype k gf.2
      (gf.1 :: rest.1, rest.2)

/-- The `upgrading` year loop (lines 448–463): years `2026 - offset`
with the 2015 floor, 1 gift per year after year-offset 3 and 1–3
before, multiplier shrinking by 0.7 per year going backward. -/
def upgradeYearLoop (base : ℚ) (cid ctype : String) :
    Nat → Nat → ℚ → RNG → List Gift × RNG
  | 0, _, _, g => ([], g)
  | n + 1, offset, mult, g =>
    let year := 2026 - offset
    if year < 2015 then ([], g)
    else
      let k := if 3 < offset then ((1 : Nat), g) else randInt 1 3 g
      let gs := guardedYearGifts year base mult cid ctype k.1 k.2
      let rest := upgradeYearLoop base cid ctype n (offset + 1) (mult * (7/10)) gs.2
      (gs.1 ++ rest.1, rest.2)

/-- The `downgrading` year loop (lines 468–483): years `2026 - offset`
with the 2015 floor, 1–2 gifts per year (drawn fresh every year),
multiplier growing by 1.3 per year going backward. -/
def downgradeYearLoop (base : ℚ) (cid ctype : String) :
    Nat → Nat → ℚ → RNG → List Gift × RNG
  | 0, _, _, g => ([], g)
  | n + 1, offset, mult, g =>
    let year := 2026 - offset
    if year < 2015 then ([], g)
    else
      let k := randInt 1 2 g
      let gs := guardedYearGifts year base mult cid ctype k.1 k.2
      let rest := downgradeYearLoop base cid ctype n (offset + 1) (mult * (13/10)) gs.2
      (gs.1 ++ rest.1, rest.2)

/-- The consistent-profile year loop (lines 489–500): years
`2026 - offset` with the 2010 floor, a fixed per-year gift count. -/
def consistentYearLoop (base : ℚ) (cid ctype : String) (gpy : Nat) :
    Nat → Nat → RNG → List Gift × RNG
  | 0, _, g => ([], g)
  | n + 1, offset, g =>
    let year := 2026 - offset
    if year < 2010 then ([], g)
    else
      let gs := guardedYearGifts year base 1 cid ctype gpy g
      let rest := consistentYearLoop base cid ctype gpy n (offset + 1) gs.2
      (gs.1 ++ rest.1, rest.2)

/-- Character-list version of Python's `startswith`. -/
def startsWithL : List Char → List Char → Bool
  | [], _ => true
  | _ :: _, [] => false
  | p :: ps, t :: ts => p == t && startsWithL ps ts

/-- Character-list version of Python's substring containment. -/
def containsSub : List Char → List Char → Bool
  | pat, [] => startsWithL pat []
  | pat, c :: ts => startsWithL pat (c :: ts) || containsSub pat ts

/-- Python's `pat in s` on strings. -/
def strContains (s pat : String) : Bool := containsSub pat.toList s.toList

/-- `generate_gifts_for_constituent` (lines 370–502). -/
def generate_gifts_for_constituent (c : Constituent) (g : RNG) : List Gift × RNG :=
  let capacity := c.estimated_capacity
  let cid := c.constituent_id
  let ctype := c.constituent_type
  let u0 := uniformQ (1/100) (5/100) g
  let base := capacity * u0.1
  if c.profile == "never" then ([], u0.2)
  else if c.profile == "one_time" then
    let dd := randInt 365 2000 u0.2
    let u := uniformQ (1/2) (3/2) dd.2
    let gf := create_gift cid (anchorDays - dd.1) (base * u.1) ctype u.2
    ([gf.1], gf.2)
  else if c.profile == "new_donor" then
    let dd := randInt 30 730 u0.2
    let k := randInt 1 3 dd.2
    newDonorLoop (anchorDays - dd.1) base cid ctype k.1 0 k.2
  else if c.profile == "lybunt" then
    let ys := randInt 3 10 u0.2
    lybuntYearLoop base cid ctype ys.1 0 ys.2
  else if c.profile == "sybunt" then
    let ly := randInt 2020 2023 u0.2
    let ys := randInt 2 6 ly.2
    sybuntYearLoop ly.1 base cid ctype ys.1 0 ys.2
  else if c.profile == "sporadic" then
    let k := randInt 3 8 u0.2
    let years := sampleNats (min k.1 10) (List.range' 2015 11) k.2
    sporadicLoop base cid ctype years.1 years.2
  else if c.profile == "upgrading" then
    let ys := randInt 4 10 u0.2
    upgradeYearLoop base cid ctype ys.1 0 1 ys.2
  else if c.profile == "downgrading" then
    let ys := randInt 4 10 u0.2
    downgradeYearLoop base cid ctype ys.1 0 1 ys.2
  else
    let ys := randInt 5 15 u0.2
    let gpy :=
      if strContains c.profile "major" then ((2 : Nat), ys.2)
      else if strContains c.profile "leadership" then ((2 : Nat), ys.2)
      else randInt 1 3 ys.2
    consistentYearLoop base cid ctype gpy.1 ys.1 0 gpy.2

/- ## Contact history synthesizer -/

/-- A contact identifier `f"C-{const_id}-{n}"`. -/
def mk_contact_id (cid : String) (n : Nat) : String := "C-" ++ cid ++ "-" ++ toString n

/-- The weighted outcome categorical of `create_contact`. -/
def outcomeWeights : List (String × Nat) :=
  [("positive", 35), ("neutral", 40), ("negative", 10), ("no_response", 15)]

/-- The 8-item next-action list of `create_contact`. -/
def nextActions : List String := [
  "Schedule follow-up meeting", "Send thank you note", "Prepare gift agreement",
  "Schedule campus visit", "Connect with faculty", "Send impact report",
  "Follow up on pledge", "Invite to event"]

/-- `create_contact` (lines 607–642). -/
def create_contact (constId : String) (contactDate : Nat) (contactType : String)
    (g : RNG) : ContactRec × RNG :=
  let s1 := choiceD CONTACT_SUBJECTS "" g
  let s2 := choiceD CONTACT_NOTES "" s1.2
  let s3 := weightedChoice outcomeWeights "positive" s2.2
  let na :=
    if s3.1 == "positive" then
      let r := randFloat s3.2
      if r.1 < 3/10 then
        let a := choiceD nextActions "" r.2
        let dd := randInt 7 60 a.2
        ((a.1, some (contactDate + dd.1)), dd.2)
      else ((("" : String), (none : Option Nat)), r.2)
    else ((("" : String), (none : Option Nat)), s3.2)
  let s4 := randInt 100 999 na.2
  ({ contact_id := mk_contact_id constId s4.1,
     constituent_id := constId,
     contact_date := contactDate,
     contact_type := contactType,
     subject := s1.1,
     notes := s2.1,
     outcome := s3.1,
     next_action := na.1.1,
     next_action_date := na.1.2 }, s4.2)

/-- One year's worth of contacts for an assigned constituent
(lines 586–602): random date in the year, dropped past the anchor,
tier-specific channel set. -/
def contactsInYear (year : Nat) (tier cid : String) :
    Nat → RNG → List ContactRec × RNG
  | 0, g => ([], g)
  | k + 1, g =>
    let m := randInt 1 12 g
    let d := randInt 1 28 m.2
    let cdate := toDays year m.1 d.1
    if anchorDays < cdate then
      contactsInYear year tier cid k d.2
    else
      let ch :=
        if tier == "major" then choiceD ["meeting", "visit", "call", "email", "event"] "" d.2
        else if tier == "leadership" then choiceD ["call", "email", "meeting", "event"] "" d.2
        else choiceD ["email", "call", "event", "phonathon"] "" d.2
      let ct := create_contact cid cdate ch.1 ch.2
      let rest := contactsInYear year tier cid k ct.2
      (ct.1 :: rest.1, rest.2)

/-- The per-year contact loop over `[2023, 2024, 2025]` (lines 582–602):
contact count is the tier base rate plus `randint(-2, 2)`, floored at 1. -/
def contactsYearLoop (cpy : Nat) (tier cid : String) :
    List Nat → RNG → List ContactRec × RNG
  | [], g => ([], g)
  | y :: rest, g =>
    let j := randIntZ (-2) 2 g
    let num := max 1 ((cpy : Int) + j.1)
    let gs := contactsInYear y tier cid num.toNat j.2
    let r2 := contactsYearLoop cpy tier cid rest gs.2
    (gs.1 ++ r2.1, r2.2)

/-- `generate_contacts_for_constituent` (lines 556–604).  The `_gifts`
argument mirrors the Python signature; the function never reads it. -/
def generate_contacts_for_constituent (c : Constituent) (_gifts : List Gift)
    (g : RNG) : List ContactRec × RNG :=
  if c.assigned_officer_id == "" then
    let r := randFloat g
    if r.1 < 1/10 then
      let m := randInt 1 12 r.2
      let d := randInt 1 28 m.2
      let ct := create_contact c.constituent_id (toDays 2025 m.1 d.1) "phonathon" d.2
      ([ct.1], ct.2)
    else ([], r.2)
  else
    let cpy :=
      if c.portfolio_tier == "major" then randInt 8 15 g
      else if c.portfolio_tier == "leadership" then randInt 4 8 g
      else randInt 1 4 g
    contactsYearLoop cpy.1 c.portfolio_tier c.constituent_id [2023, 2024, 2025] cpy.2

/- ## Dataset assembler -/

/-- The identifier-collision `while` loop of `main` (lines 678–679 and
701–702), totalized with fuel: regenerate the random numeric suffix of
the identifier until it is no longer in `seen`; `none` models a run
that has not terminated within `fuel` regenerations. -/
def freshIdLoop {α : Type} (getId : α → String) (regen : α → Nat → α)
    (seen : List String) : Nat → α → RNG → Option (α × RNG)
  | 0, a, g => if getId a ∈ seen then none else some (a, g)
  | fuel + 1, a, g =>
    if getId a ∈ seen then
      let n := randInt 100 999 g
      freshIdLoop getId regen seen fuel (regen a n.1) n.2
    else some (a, g)

/-- The deduplication pass of `main` (lines 675–682 / 698–705): walk the
records, forcing each identifier out of the `seen` set, keeping every
record. -/
def dedupLoop {α : Type} (getId : α → String) (regen : α → Nat → α)
    (fuel : Nat) : List α → List String → RNG → Option (List α × RNG)
  | [], _, g => some ([], g)
  | a :: rest, seen, g =>
    match freshIdLoop getId regen seen fuel a g with
    | none => none
    | some (a2, g2) =>
      match dedupLoop getId regen fuel rest (getId a2 :: seen) g2 with
      | none => none
      | some (l, g3) => some (a2 :: l, g3)

/-- Regeneration of a colliding gift identifier (line 679): only the
random numeric suffix is redrawn. -/
def regenGift (gf : Gift) (n : Nat) : Gift :=
  { gf with gift_id := mk_gift_id gf.constituent_id n }

/-- Regeneration of a colliding contact identifier (line 702). -/
def regenContact (ct : ContactRec) (n : Nat) : ContactRec :=
  { ct with contact_id := mk_contact_id ct.constituent_id n }

/-- Gift-identifier deduplication of `main` (lines 674–682). -/
def dedupGifts (fuel : Nat) (l : List Gift) (g : RNG) : Option (List Gift × RNG) :=
  dedupLoop Gift.gift_id regenGift fuel l [] g

/-- Contact-identifier deduplication of `main` (lines 697–705). -/
def dedupContacts (fuel : Nat) (l : List ContactRec) (g : RNG) :
    Option (List ContactRec × RNG) :=
  dedupLoop ContactRec.contact_id regenContact fuel l [] g

def NUM_CONSTITUENTS : Nat := 800

/-- The constituent loop of `main` (lines 655–657). -/
def constituentsLoop : Nat → Nat → RNG → List Constituent × RNG
  | 0, _, g => ([], g)
  | n + 1, i, g =>
    let c := generate_constituent i g
    let rest := constituentsLoop n (i + 1) c.2
    (c.1 :: rest.1, rest.2)

/-- The gift loop of `main` (lines 668–671). -/
def giftsLoop : List Constituent → RNG → List Gift × RNG
  | [], g => ([], g)
  | c :: rest, g =>
    let gs := generate_gifts_for_constituent c g
    let r2 := giftsLoop rest gs.2
    (gs.1 ++ r2.1, r2.2)

/-- The contact loop of `main` (lines 686–694), handing each
constituent its grouped gifts. -/
def contactsLoop (allGifts : List Gift) : List Constituent → RNG → List ContactRec × RNG
  | [], g => ([], g)
  | c :: rest, g =>
    let cg := allGifts.filter (fun gf => gf.constituent_id == c.constituent_id)
    let cs := generate_contacts_for_constituent c cg g
    let r2 := contactsLoop allGifts rest cs.2
    (cs.1 ++ r2.1, r2.2)

/-- The full generation pipeline of `main` (lines 645–705), up to the
out-of-scope CSV serialization: the three finished record collections
as a pure function of the initial random state.  `fuel` bounds the
identifier-collision retries. -/
def generateAll (fuel : Nat) (g : RNG) :
    Option (List Constituent × List Gift × List ContactRec) :=
  let cs := constituentsLoop NUM_CONSTITUENTS 1 g
  let gs := giftsLoop cs.1 cs.2
  match dedupGifts fuel gs.1 gs.2 with
  | none => none
  | some (gifts, g2) =>
    let cts := contactsLoop gifts cs.1 g2
    match dedupContacts fuel cts.1 cts.2 with
    | none => none
    | some (contacts2, _) => some (cs.1, gifts, contacts2)

/- ## Small facts about the embedded operations -/

theorem choiceD_pair {α : Type} (a b d : α) (g : RNG) :
    (choiceD [a, b] d g).1 = a ∨ (choiceD [a, b] d g).1 = b := by
  simp only [choiceD, RNG.next, List.length_cons, List.length_nil]
  rcases Nat.mod_two_eq_zero_or_one (g.stream g.pos) with h | h <;>
    rw [h] <;> simp

theorem create_gift_date (cid : String) (d : Nat) (a : ℚ) (ct : String) (g : RNG) :
    (create_gift cid d a ct g).1.gift_date = d := rfl

theorem create_gift_amount (cid : String) (d : Nat) (a : ℚ) (ct : String) (g : RNG) :
    (create_gift cid d a ct g).1.amount = roundGiftAmount a := rfl

theorem create_contact_date (cid : String) (d : Nat) (ty : String) (g : RNG) :
    (create_contact cid d ty g).1.contact_date = d := rfl

theorem create_contact_type (cid : String) (d : Nat) (ty : String) (g : RNG) :
    (create_contact cid d ty g).1.contact_type = ty := rfl

/- ## Concrete inputs for the concrete runs -/

/-- A draw stream given by an explicit list (0 beyond its end). -/
def streamOfList (l : List Nat) (n : Nat) : Nat := l.getD n 0

/-- A concrete unassigned alumni constituent with capacity 1000 and the
`new_donor` profile, used for the concrete runs below. -/
def cDemoNewDonor : Constituent :=
  { constituent_id := "LU-00001", prefixName := "", first_name := "", middle_name := "",
    last_name := "", suffix := "", email := "", phone := "", address_line1 := "",
    address_line2 := "", city := "", state := "", postal_code := "", country := "",
    constituent_type := "alumni", class_year := none, school_college := "",
    estimated_capacity := 1000, capacity_source := "", assigned_officer_id := "",
    portfolio_tier := "annual", profile := "new_donor" }

/-- The same constituent with the `downgrading` profile. -/
def cDemoDowngrading : Constituent := { cDemoNewDonor with profile := "downgrading" }

/-- Draws steering `generate_contacts_for_constituent` on an unassigned
constituent to one phonathon contact dated 2025-12-28 with a positive
outcome and a next action 60 days out. -/
def drawsNextAction : List Nat := [0, 11, 27, 0, 0, 0, 0, 0, 53, 0]

/- String disequalities used to resolve the profile dispatch on
concrete runs. -/

theorem ndNe1 : ("new_donor" : String) ≠ "never" := by decide

theorem ndNe2 : ("new_donor" : String) ≠ "one_time" := by decide

theorem tyNe1 : ("alumni" : String) ≠ "foundation" := by decide

theorem tyNe2 : ("alumni" : String) ≠ "corporation" := by decide

theorem dgNe1 : ("downgrading" : String) ≠ "never" := by decide

theorem dgNe2 : ("downgrading" : String) ≠ "one_time" := by decide

theorem dgNe3 : ("downgrading" : String) ≠ "new_donor" := by decide

theorem dgNe4 : ("downgrading" : String) ≠ "lybunt" := by decide

theorem dgNe5 : ("downgrading" : String) ≠ "sybunt" := by decide

theorem dgNe6 : ("downgrading" : String) ≠ "sporadic" := by decide

theorem dgNe7 : ("downgrading" : String) ≠ "upgrading" := by decide

/- ## C1 — determinism in the seed -/

/-- C1: the entire generation is deterministic in the seed.  The
embedding threads the single process-wide random source explicitly, so
the whole pipeline `generateAll` is a pure function of the initial
state: two independent runs from equal seeds produce equal constituent,
gift, and contact collections. -/
theorem generateAll_deterministic (fuel : Nat) (g1 g2 : RNG) (h : g1 = g2) :
    generateAll fuel g1 = generateAll fuel g2 := by rw [h]

/-- Witness for C1 at a concrete seed state. -/
theorem generateAll_deterministic_witness :
    generateAll 1000 ⟨streamOfList [], 0⟩ = generateAll 1000 ⟨streamOfList [], 0⟩ :=
  generateAll_deterministic 1000 ⟨streamOfList [], 0⟩ ⟨streamOfList [], 0⟩ rfl

/- ## C2 — the §4.2 tier/officer table -/

/-- C2: portfolio tier and officer assignment follow the capacity
table: ≥ 500000 major with the fixed major-gifts officer; [100000,
500000) leadership with one of the two officers (uniform index draw);
[25000, 100000) leadership with a 50/50 choice of the leadership
manager or unassigned; [5000, 25000) annual unassigned; below 5000 the
`none` tier (serialized as the empty string) unassigned. -/
theorem tier_officer_table (cap : ℚ) (g : RNG) :
    (500000 ≤ cap → (portfolioAssign cap g).1 = (some john_officer, "major")) ∧
    (100000 ≤ cap → cap < 500000 →
      (portfolioAssign cap g).1 = (some john_officer, "leadership") ∨
      (portfolioAssign cap g).1 = (some sarah_manager, "leadership")) ∧
    (25000 ≤ cap → cap < 100000 →
      (portfolioAssign cap g).1 = (some sarah_manager, "leadership") ∨
      (portfolioAssign cap g).1 = (none, "leadership")) ∧
    (5000 ≤ cap → cap < 25000 → (portfolioAssign cap g).1 = (none, "annual")) ∧
    (cap < 5000 → (portfolioAssign cap g).1 = (none, "")) := by
  refine ⟨fun h => ?_, fun h1 h2 => ?_, fun h1 h2 => ?_, fun h1 h2 => ?_, fun h => ?_⟩
  · rw [portfolioAssign, if_pos h]
  · rw [portfolioAssign, if_neg (by linarith), if_pos h1]
    rcases choiceD_pair john_officer sarah_manager john_officer g with h | h <;> simp [h]
  · rw [portfolioAssign, if_neg (by linarith), if_neg (by linarith), if_pos h1]
    rcases choiceD_pair (some sarah_manager) none none g with h | h <;> simp [h]
  · rw [portfolioAssign, if_neg (by linarith), if_neg (by linarith),
      if_neg (by linarith), if_pos h1]
  · rw [portfolioAssign, if_neg (by linarith), if_neg (by linarith),
      if_neg (by linarith), if_neg (by linarith)]

/-- Witness for C2 at capacity 600000 (and, for the draw-dependent
rows, 200000 and 50000 on the all-zero draw stream). -/
theorem tier_officer_table_witness :
    (portfolioAssign 600000 ⟨streamOfList [], 0⟩).1 = (some john_officer, "major") ∧
    ((portfolioAssign 200000 ⟨streamOfList [], 0⟩).1 = (some john_officer, "leadership") ∨
      (portfolioAssign 200000 ⟨streamOfList [], 0⟩).1 = (some sarah_manager, "leadership")) ∧
    (portfolioAssign 3000 ⟨streamOfList [], 0⟩).1 = (none, "") :=
  ⟨(tier_officer_table 600000 ⟨streamOfList [], 0⟩).1 (by norm_num),
   (tier_officer_table 200000 ⟨streamOfList [], 0⟩).2.1 (by norm_num) (by norm_num),
   (tier_officer_table 3000 ⟨streamOfList [], 0⟩).2.2.2.2 (by norm_num)⟩

/- ## C5 — the tiered amount rounding rule -/

/-- C5: gift-amount rounding is tiered — above 10000 to the nearest
multiple of 100, above 1000 to the nearest multiple of 10, otherwise
to two decimal places (nearest in every tier, ties to even per
Python's `round`) — and on the spec's examples 12345.67 ↦ 12300,
4321 ↦ 4320, 55.678 ↦ 55.68. -/
theorem amount_rounding_rule :
    (∀ a : ℚ, 10000 < a →
      ∃ k : ℤ, roundGiftAmount a = 100 * k ∧ |roundGiftAmount a - a| ≤ 50) ∧
    (∀ a : ℚ, 1000 < a → a ≤ 10000 →
      ∃ k : ℤ, roundGiftAmount a = 10 * k ∧ |roundGiftAmount a - a| ≤ 5) ∧
    (∀ a : ℚ, a ≤ 1000 →
      ∃ k : ℤ, roundGiftAmount a = (k : ℚ) / 100 ∧ |roundGiftAmount a - a| ≤ 1/200) ∧
    roundGiftAmount (1234567/100) = 12300 ∧
    roundGiftAmount 4321 = 4320 ∧
    roundGiftAmount (55678/1000) = 5568/100 := by
  refine ⟨fun a ha => ?_, fun a ha1 ha2 => ?_, fun a ha => ?_, ?_, ?_, ?_⟩
  · rw [roundGiftAmount, if_pos ha]
    refine ⟨pyRound (a / 100), by ring, ?_⟩
    have h := pyRound_near (a / 100)
    rw [abs_le] at h ⊢
    constructor <;> linarith [h.1, h.2]
  · rw [roundGiftAmount, if_neg (not_lt.mpr ha2), if_pos ha1]
    refine ⟨pyRound (a / 10), by ring, ?_⟩
    have h := pyRound_near (a / 10)
    rw [abs_le] at h ⊢
    constructor <;> linarith [h.1, h.2]
  · rw [roundGiftAmount, if_neg (by linarith), if_neg (not_lt.mpr ha), pyRound2]
    refine ⟨pyRound (a * 100), rfl, ?_⟩
    have h := pyRound_near (a * 100)
    rw [abs_le] at h ⊢
    constructor <;> linarith [h.1, h.2]
  · norm_num [roundGiftAmount, pyRound, pyRound2]
  · norm_num [roundGiftAmount, pyRound, pyRound2]
  · norm_num [roundGiftAmount, pyRound, pyRound2]

/-- Witness for C5 in each tier, at 20000, 4321 and 55.678. -/
theorem amount_rounding_rule_witness :
    (∃ k : ℤ, roundGiftAmount 20000 = 100 * k ∧ |roundGiftAmount 20000 - 20000| ≤ 50) ∧
    (∃ k : ℤ, roundGiftAmount 4321 = 10 * k ∧ |roundGiftAmount 4321 - 4321| ≤ 5) ∧
    (∃ k : ℤ, roundGiftAmount (55678/1000) = (k : ℚ) / 100 ∧
      |roundGiftAmount (55678/1000) - 55678/1000| ≤ 1/200) :=
  ⟨amount_rounding_rule.1 20000 (by norm_num),
   amount_rounding_rule.2.1 4321 (by norm_num) (by norm_num),
   amount_rounding_rule.2.2.1 (55678/1000) (by norm_num)⟩

/- ## C10 — the anchor bound does not extend to next-action dates -/

/-- C10: the anchor-date bound does not extend to next-action dates.
On a reachable draw stream, an unassigned constituent's phonathon
contact dated 2025-12-28 with a positive outcome receives a next
action dated 60 days later, strictly after the 2026-01-29 anchor. -/
theorem next_action_date_exceeds_anchor :
    ((generate_contacts_for_constituent cDemoNewDonor []
        ⟨streamOfList drawsNextAction, 0⟩).1.map
      (fun ct => (ct.contact_date, ct.outcome, ct.next_action_date)))
      = [(toDays 2025 12 28, "positive", some (toDays 2025 12 28 + 60))] ∧
    anchorDays < toDays 2025 12 28 + 60 := by
  constructor
  · norm_num [generate_contacts_for_constituent, create_contact, choiceD, weightedChoice,
      pickCum, randFloat, randInt, RNG.next, streamOfList, outcomeWeights, nextActions,
      CONTACT_SUBJECTS, CONTACT_NOTES, toDays, leapsBefore, daysBeforeMonth, monthOffset,
      isLeap, mk_contact_id, anchorDays, cDemoNewDonor, drawsNextAction, List.getD]
  · decide

/- ## C3 — no gift or contact date exceeds the anchor -/

theorem newDonorLoop_dates (startDay : Nat) (base : ℚ) (cid ctype : String) :
    ∀ n i g, ∀ gf ∈ (newDonorLoop startDay base cid ctype n i g).1,
      gf.gift_date ≤ anchorDays := by
  intro n
  induction n with
  | zero => intro i g gf h; simp [newDonorLoop] at h
  | succ n ih =>
    intro i g gf h
    simp only [newDonorLoop] at h
    split at h
    · simp at h
    · rename_i hguard
      simp only [List.mem_cons] at h
      rcases h with h | h
      · subst h; rw [create_gift_date]; omega
      · exact ih _ _ gf h

theorem yearGifts_dates (year : Nat) (base lo hi : ℚ) (cid ctype : String)
    (hy : year ≤ 2025) :
    ∀ k g, ∀ gf ∈ (yearGifts year base lo hi cid ctype k g).1,
      gf.gift_date ≤ anchorDays := by
  intro k
  induction k with
  | zero => intro g gf h; simp [yearGifts] at h
  | succ k ih =>
    intro g gf h
    simp only [yearGifts, List.mem_cons] at h
    rcases h with h | h
    · subst h
      rw [create_gift_date]
      exact toDays_le_of_year_le_2025 _ _ _ hy (randInt_le 1 28 _ (by norm_num))
    · exact ih _ gf h

theorem lybuntYearLoop_dates (base : ℚ) (cid ctype : String) :
    ∀ n offset g, ∀ gf ∈ (lybuntYearLoop base cid ctype n offset g).1,
      gf.gift_date ≤ anchorDays := by
  intro n
  induction n with
  | zero => intro o g gf h; simp [lybuntYearLoop] at h
  | succ n ih =>
    intro o g gf h
    simp only [lybuntYearLoop] at h
    split at h
    · simp at h
    · simp only [List.mem_append] at h
      rcases h with h | h
      · exact yearGifts_dates _ _ _ _ _ _ (by omega) _ _ gf h
      · exact ih _ _ gf h

theorem sybuntYearLoop_dates (lastYear : Nat) (base : ℚ) (cid ctype : String)
    (hy : lastYear ≤ 2025) :
    ∀ n offset g, ∀ gf ∈ (sybuntYearLoop lastYear base cid ctype n offset g).1,
      gf.gift_date ≤ anchorDays := by
  intro n
  induction n with
  | zero => intro o g gf h; simp [sybuntYearLoop] at h
  | succ n ih =>
    intro o g gf h
    simp only [sybuntYearLoop] at h
    split at h
    · simp at h
    · simp only [List.mem_append] at h
      rcases h with h | h
      · exact yearGifts_dates _ _ _ _ _ _ (by omega) _ _ gf h
      · exact ih _ _ gf h

theorem sporadicLoop_dates (base : ℚ) (cid ctype : String) :
    ∀ ys g, (∀ y ∈ ys, y ≤ 2025) →
      ∀ gf ∈ (sporadicLoop base cid ctype ys g).1, gf.gift_date ≤ anchorDays := by
  intro ys
  induction ys with
  | nil => intro g _ gf h; simp [sporadicLoop] at h
  | cons y t ih =>
    intro g hy gf h
    simp only [sporadicLoop, List.mem_append] at h
    rcases h with h | h
    · exact yearGifts_dates _ _ _ _ _ _ (hy y (by simp)) _ _ gf h
    · exact ih _ (fun z hz => hy z (by simp [hz])) gf h

theorem guardedYearGifts_dates (year : Nat) (base mult : ℚ) (cid ctype : String) :
    ∀ cnt g, ∀ gf ∈ (guardedYearGifts year base mult cid ctype cnt g).1,
      gf.gift_date ≤ anchorDays := by
  intro cnt
  induction cnt with
  | zero => intro g gf h; simp [guardedYearGifts] at h
  | succ k ih =>
    intro g gf h
    simp only [guardedYearGifts] at h
    split at h
    all_goals
      split at h
      · exact ih _ gf h
      · rename_i hguard
        try dsimp only at hguard
        simp only [List.mem_cons] at h
        rcases h with h | h
        · subst h; rw [create_gift_date]; omega
        · exact ih _ gf h

theorem upgradeYearLoop_dates (base : ℚ) (cid ctype : String) :
    ∀ n offset mult g, ∀ gf ∈ (upgradeYearLoop base cid ctype n offset mult g).1,
      gf.gift_date ≤ anchorDays := by
  intro n
  induction n with
  | zero => intro o m g gf h; simp [upgradeYearLoop] at h
  | succ n ih =>
    intro o m g gf h
    simp only [upgradeYearLoop] at h
    split at h
    · simp at h
    · simp only [List.mem_append] at h
      rcases h with h | h
      · exact guardedYearGifts_dates _ _ _ _ _ _ _ gf h
      · exact ih _ _ _ gf h

theorem downgradeYearLoop_dates (base : ℚ) (cid ctype : String) :
    ∀ n offset mult g, ∀ gf ∈ (downgradeYearLoop base cid ctype n offset mult g).1,
      gf.gift_date ≤ anchorDays := by
  intro n
  induction n with
  | zero => intro o m g gf h; simp [downgradeYearLoop] at h
  | succ n ih =>
    intro o m g gf h
    simp only [downgradeYearLoop] at h
    split at h
    · simp at h
    · simp only [List.mem_append] at h
      rcases h with h | h
      · exact guardedYearGifts_dates _ _ _ _ _ _ _ gf h
      · exact ih _ _ _ gf h

theorem consistentYearLoop_dates (base : ℚ) (cid ctype : String) (gpy : Nat) :
    ∀ n offset g, ∀ gf ∈ (consistentYearLoop base cid ctype gpy n offset g).1,
      gf.gift_date ≤ anchorDays := by
  intro n
  induction n with
  | zero => intro o g gf h; simp [consistentYearLoop] at h
  | succ n ih =>
    intro o g gf h
    simp only [consistentYearLoop] at h
    split at h
    · simp at h
    · simp only [List.mem_append] at h
      rcases h with h | h
      · exact guardedYearGifts_dates _ _ _ _ _ _ _ gf h
      · exact ih _ _ gf h

theorem getD_mem_of_lt : ∀ (l : List Nat) (i : Nat), i < l.length → l.getD i 0 ∈ l := by
  intro l
  induction l with
  | nil => intro i h; simp at h
  | cons a t ih =>
    intro i h
    cases i with
    | zero => simp
    | succ j =>
      simp only [List.getD_cons_succ]
      exact List.mem_cons_of_mem _ (ih j (by simpa using h))

theorem sampleNats_mem : ∀ k pool g y, y ∈ (sampleNats k pool g).1 → y ∈ pool := by
  intro k
  induction k with
  | zero => intro pool g y h; simp [sampleNats] at h
  | succ k ih =>
    intro pool g y h
    simp only [sampleNats] at h
    split at h
    · simp at h
    · rename_i hne
      simp only [List.mem_cons] at h
      rcases h with h | h
      · subst h
        exact getD_mem_of_lt _ _ (Nat.mod_lt _ (by omega))
      · exact (pool.eraseIdx_subset _) (ih _ _ _ h)

set_option maxHeartbeats 1000000 in
theorem gift_dates_le (c : Constituent) (g : RNG) :
    ∀ gf ∈ (generate_gifts_for_constituent c g).1, gf.gift_date ≤ anchorDays := by
  intro gf h
  simp only [generate_gifts_for_constituent] at h
  split at h
  · simp at h
  · split at h
    · simp only [List.mem_singleton] at h
      subst h
      rw [create_gift_date]
      exact Nat.sub_le _ _
    · split at h
      · exact newDonorLoop_dates _ _ _ _ _ _ _ gf h
      · split at h
        · exact lybuntYearLoop_dates _ _ _ _ _ _ gf h
        · split at h
          · exact sybuntYearLoop_dates _ _ _ _
              ((randInt_le 2020 2023 _ (by norm_num)).trans (by norm_num)) _ _ _ gf h
          · split at h
            · refine sporadicLoop_dates _ _ _ _ _ (fun y hy => ?_) gf h
              have hmem := sampleNats_mem _ _ _ _ hy
              rw [List.mem_range'_1] at hmem
              omega
            · split at h
              · exact upgradeYearLoop_dates _ _ _ _ _ _ _ gf h
              · split at h
                · exact downgradeYearLoop_dates _ _ _ _ _ _ _ gf h
                · exact consistentYearLoop_dates _ _ _ _ _ _ _ gf h

theorem contactsInYear_dates (year : Nat) (tier cid : String) :
    ∀ k g, ∀ ct ∈ (contactsInYear year tier cid k g).1,
      ct.contact_date ≤ anchorDays := by
  intro k
  induction k with
  | zero => intro g ct h; simp [contactsInYear] at h
  | succ k ih =>
    intro g ct h
    simp only [contactsInYear] at h
    split at h
    · exact ih _ ct h
    · rename_i hguard
      simp only [List.mem_cons] at h
      rcases h with h | h
      · subst h; rw [create_contact_date]; omega
      · exact ih _ ct h

theorem contactsYearLoop_dates (cpy : Nat) (tier cid : String) :
    ∀ ys g, ∀ ct ∈ (contactsYearLoop cpy tier cid ys g).1,
      ct.contact_date ≤ anchorDays := by
  intro ys
  induction ys with
  | nil => intro g ct h; simp [contactsYearLoop] at h
  | cons y t ih =>
    intro g ct h
    simp only [contactsYearLoop, List.mem_append] at h
    rcases h with h | h
    · exact contactsInYear_dates _ _ _ _ _ ct h
    · exact ih _ ct h

theorem contact_dates_le (c : Constituent) (gl : List Gift) (g : RNG) :
    ∀ ct ∈ (generate_contacts_for_constituent c gl g).1,
      ct.contact_date ≤ anchorDays := by
  intro ct h
  simp only [generate_contacts_for_constituent] at h
  split at h
  · split at h
    · simp only [List.mem_singleton] at h
      subst h
      rw [create_contact_date]
      exact toDays_le_of_year_le_2025 _ _ _ (by norm_num) (randInt_le 1 28 _ (by norm_num))
    · simp at h
  · exact contactsYearLoop_dates _ _ _ _ _ ct h

/-- C3: for every constituent and every random state, no generated
gift date and no generated contact date exceeds the fixed anchor date
2026-01-29 (`anchorDays`). -/
theorem no_record_date_exceeds_anchor (c : Constituent) (gl : List Gift) (g1 g2 : RNG) :
    (∀ gf ∈ (generate_gifts_for_constituent c g1).1, gf.gift_date ≤ anchorDays) ∧
    (∀ ct ∈ (generate_contacts_for_constituent c gl g2).1, ct.contact_date ≤ anchorDays) :=
  ⟨gift_dates_le c g1, contact_dates_le c gl g2⟩

/- ## C8 — unassigned constituents' contacts -/

theorem toDays_2025_lower (m d : Nat) :
    toDays 2025 1 1 ≤ toDays 2025 m d := by
  have hL : leapsBefore 2025 = 7 := by decide
  have h1 : daysBeforeMonth (isLeap 2025) 1 = 0 := by decide
  simp only [toDays, hL, h1]
  omega

theorem toDays_2025_upper (m d : Nat) (hd : d ≤ 28) :
    toDays 2025 m d ≤ toDays 2025 12 31 := by
  have hL : leapsBefore 2025 = 7 := by decide
  have hmo := daysBeforeMonth_le (isLeap 2025) m
  have h12 : daysBeforeMonth (isLeap 2025) 12 = 334 := by decide
  simp only [toDays, hL, h12]
  omega

/-- C8: a constituent with no assigned officer receives at most one
contact — exactly one when the 10% draw hits, none otherwise — always
through the phonathon channel and always dated within the year 2025
(the year before the anchor year). -/
theorem unassigned_contacts (c : Constituent) (gl : List Gift) (g : RNG)
    (h : c.assigned_officer_id = "") :
    (generate_contacts_for_constituent c gl g).1.length ≤ 1 ∧
    ((generate_contacts_for_constituent c gl g).1.Forall fun ct =>
      ct.contact_type = "phonathon" ∧
      toDays 2025 1 1 ≤ ct.contact_date ∧ ct.contact_date ≤ toDays 2025 12 31) ∧
    (if (randFloat g).1 < 1/10
     then (generate_contacts_for_constituent c gl g).1.length = 1
     else (generate_contacts_for_constituent c gl g).1 = []) := by
  simp only [generate_contacts_for_constituent, h, beq_self_eq_true, if_true]
  by_cases hr : (randFloat g).1 < 1/10
  · simp only [if_pos hr]
    refine ⟨by simp, ?_, by simp⟩
    simp only [List.Forall]
    refine ⟨rfl, ?_, ?_⟩
    · rw [create_contact_date]
      exact toDays_2025_lower _ _
    · rw [create_contact_date]
      exact toDays_2025_upper _ _ (randInt_le 1 28 _ (by norm_num))
  · simp only [if_neg hr]
    exact ⟨by simp, by simp [List.Forall], by simp⟩

/-- Witness for C8 on a concrete unassigned constituent and the
all-zero draw stream (the 10% branch hits, giving exactly one
phonathon contact in 2025). -/
theorem unassigned_contacts_witness :
    (generate_contacts_for_constituent cDemoNewDonor [] ⟨streamOfList [], 0⟩).1.length ≤ 1 ∧
    ((generate_contacts_for_constituent cDemoNewDonor [] ⟨streamOfList [], 0⟩).1.Forall fun ct =>
      ct.contact_type = "phonathon" ∧
      toDays 2025 1 1 ≤ ct.contact_date ∧ ct.contact_date ≤ toDays 2025 12 31) ∧
    (if (randFloat ⟨streamOfList [], 0⟩).1 < 1/10
     then (generate_contacts_for_constituent cDemoNewDonor [] ⟨streamOfList [], 0⟩).1.length = 1
     else (generate_contacts_for_constituent cDemoNewDonor [] ⟨streamOfList [], 0⟩).1 = []) :=
  unassigned_contacts cDemoNewDonor [] ⟨streamOfList [], 0⟩ rfl

/- ## C9 — every gift amount is strictly positive -/

theorem roundGiftAmount_pos_mul (base u lob : ℚ) (hb : 10 ≤ base) (hlob : 1/2 ≤ lob)
    (hu : lob ≤ u) : 0 < roundGiftAmount (base * u) :=
  roundGiftAmount_pos _ (by nlinarith)

theorem roundGiftAmount_pos_bm (bm u : ℚ) (hbm : 1/90 ≤ bm) (hu : 9/10 ≤ u) :
    0 < roundGiftAmount (bm * u) :=
  roundGiftAmount_pos _ (by nlinarith)

theorem newDonorLoop_amounts (startDay : Nat) (base : ℚ) (cid ctype : String)
    (hbase : 10 ≤ base) :
    ∀ n i g, ∀ gf ∈ (newDonorLoop startDay base cid ctype n i g).1, 0 < gf.amount := by
  intro n
  induction n with
  | zero => intro i g gf h; simp [newDonorLoop] at h
  | succ n ih =>
    intro i g gf h
    simp only [newDonorLoop] at h
    split at h
    · simp at h
    · simp only [List.mem_cons] at h
      rcases h with h | h
      · subst h
        rw [create_gift_amount]
        exact roundGiftAmount_pos_mul _ _ _ hbase (by norm_num)
          (uniformQ_ge _ _ _ (by norm_num))
      · exact ih _ _ gf h

theorem yearGifts_amounts (year : Nat) (base lo hi : ℚ) (cid ctype : String)
    (hlo : 1/2 ≤ lo) (hhi : lo ≤ hi) (hbase : 10 ≤ base) :
    ∀ k g, ∀ gf ∈ (yearGifts year base lo hi cid ctype k g).1, 0 < gf.amount := by
  intro k
  induction k with
  | zero => intro g gf h; simp [yearGifts] at h
  | succ k ih =>
    intro g gf h
    simp only [yearGifts, List.mem_cons] at h
    rcases h with h | h
    · subst h
      rw [create_gift_amount]
      exact roundGiftAmount_pos_mul _ _ _ hbase hlo (uniformQ_ge _ _ _ hhi)
    · exact ih _ gf h

theorem lybuntYearLoop_amounts (base : ℚ) (cid ctype : String) (hbase : 10 ≤ base) :
    ∀ n offset g, ∀ gf ∈ (lybuntYearLoop base cid ctype n offset g).1, 0 < gf.amount := by
  intro n
  induction n with
  | zero => intro o g gf h; simp [lybuntYearLoop] at h
  | succ n ih =>
    intro o g gf h
    simp only [lybuntYearLoop] at h
    split at h
    · simp at h
    · simp only [List.mem_append] at h
      rcases h with h | h
      · exact yearGifts_amounts _ _ _ _ _ _ (by norm_num) (by norm_num) hbase _ _ gf h
      · exact ih _ _ gf h

theorem sybuntYearLoop_amounts (lastYear : Nat) (base : ℚ) (cid ctype : String)
    (hbase : 10 ≤ base) :
    ∀ n offset g, ∀ gf ∈ (sybuntYearLoop lastYear base cid ctype n offset g).1,
      0 < gf.amount := by
  intro n
  induction n with
  | zero => intro o g gf h; simp [sybuntYearLoop] at h
  | succ n ih =>
    intro o g gf h
    simp only [sybuntYearLoop] at h
    split at h
    · simp at h
    · simp only [List.mem_append] at h
      rcases h with h | h
      · exact yearGifts_amounts _ _ _ _ _ _ (by norm_num) (by norm_num) hbase _ _ gf h
      · exact ih _ _ gf h

theorem sporadicLoop_amounts (base : ℚ) (cid ctype : String) (hbase : 10 ≤ base) :
    ∀ ys g, ∀ gf ∈ (sporadicLoop base cid ctype ys g).1, 0 < gf.amount := by
  intro ys
  induction ys with
  | nil => intro g gf h; simp [sporadicLoop] at h
  | cons y t ih =>
    intro g gf h
    simp only [sporadicLoop, List.mem_append] at h
    rcases h with h | h
    · exact yearGifts_amounts _ _ _ _ _ _ (by norm_num) (by norm_num) hbase _ _ gf h
    · exact ih _ gf h

theorem guardedYearGifts_amounts (year : Nat) (base mult : ℚ) (cid ctype : String)
    (hbm : 1/90 ≤ base * mult) :
    ∀ cnt g, ∀ gf ∈ (guardedYearGifts year base mult cid ctype cnt g).1,
      0 < gf.amount := by
  intro cnt
  induction cnt with
  | zero => intro g gf h; simp [guardedYearGifts] at h
  | succ k ih =>
    intro g gf h
    simp only [guardedYearGifts] at h
    split at h
    all_goals
      split at h
      · exact ih _ gf h
      · simp only [List.mem_cons] at h
        rcases h with h | h
        · subst h
          rw [create_gift_amount]
          exact roundGiftAmount_pos_bm _ _ hbm (uniformQ_ge _ _ _ (by norm_num))
        · exact ih _ gf h

theorem upgradeYearLoop_amounts (base : ℚ) (cid ctype : String) :
    ∀ n offset mult g, 1/90 ≤ base * mult * (7/10)^n →
      ∀ gf ∈ (upgradeYearLoop base cid ctype n offset mult g).1, 0 < gf.amount := by
  intro n
  induction n with
  | zero => intro o m g _ gf h; simp [upgradeYearLoop] at h
  | succ n ih =>
    intro o m g hm gf h
    have hp : (0 : ℚ) < (7/10)^(n+1) := by positivity
    have hp1 : ((7 : ℚ)/10)^(n+1) ≤ 1 := pow_le_one₀ (by norm_num) (by norm_num)
    have hbm0 : 0 < base * m := by nlinarith
    have hbm : 1/90 ≤ base * m := by
      nlinarith [mul_nonneg hbm0.le (by linarith : (0:ℚ) ≤ 1 - (7/10)^(n+1))]
    simp only [upgradeYearLoop] at h
    split at h
    · simp at h
    · simp only [List.mem_append] at h
      rcases h with h | h
      · exact guardedYearGifts_amounts _ _ _ _ _ hbm _ _ gf h
      · refine ih _ _ _ ?_ gf h
        calc (1:ℚ)/90 ≤ base * m * (7/10)^(n+1) := hm
          _ = base * (m * (7/10)) * (7/10)^n := by ring

theorem downgradeYearLoop_amounts (base : ℚ) (cid ctype : String) :
    ∀ n offset mult g, 1/90 ≤ base * mult →
      ∀ gf ∈ (downgradeYearLoop base cid ctype n offset mult g).1, 0 < gf.amount := by
  intro n
  induction n with
  | zero => intro o m g _ gf h; simp [downgradeYearLoop] at h
  | succ n ih =>
    intro o m g hm gf h
    simp only [downgradeYearLoop] at h
    split at h
    · simp at h
    · simp only [List.mem_append] at h
      rcases h with h | h
      · exact guardedYearGifts_amounts _ _ _ _ _ hm _ _ gf h
      · refine ih _ _ _ ?_ gf h
        nlinarith

theorem consistentYearLoop_amounts (base : ℚ) (cid ctype : String) (gpy : Nat)
    (hbase : 10 ≤ base) :
    ∀ n offset g, ∀ gf ∈ (consistentYearLoop base cid ctype gpy n offset g).1,
      0 < gf.amount := by
  intro n
  induction n with
  | zero => intro o g gf h; simp [consistentYearLoop] at h
  | succ n ih =>
    intro o g gf h
    simp only [consistentYearLoop] at h
    split at h
    · simp at h
    · simp only [List.mem_append] at h
      rcases h with h | h
      · exact guardedYearGifts_amounts _ _ _ _ _ (by nlinarith) _ _ gf h
      · exact ih _ _ gf h

set_option maxHeartbeats 2000000 in
/-- C9: for every constituent with capacity at least 1000, every
profile, and every random state, every generated gift has a strictly
positive amount after the tiered rounding. -/
theorem gift_amounts_positive (c : Constituent) (g : RNG)
    (hcap : 1000 ≤ c.estimated_capacity) :
    ((generate_gifts_for_constituent c g).1).Forall fun gf => 0 < gf.amount := by
  rw [List.forall_iff_forall_mem]
  intro gf h
  have hu0 := uniformQ_ge (1/100) (5/100) g (by norm_num)
  have hbase : 10 ≤ c.estimated_capacity * (uniformQ (1/100) (5/100) g).1 := by nlinarith
  simp only [generate_gifts_for_constituent] at h
  split at h
  · exact absurd h (List.not_mem_nil gf)
  · split at h
    · simp only [List.mem_singleton] at h
      subst h
      rw [create_gift_amount]
      exact roundGiftAmount_pos_mul _ _ _ hbase (by norm_num)
        (uniformQ_ge _ _ _ (by norm_num))
    · split at h
      · exact newDonorLoop_amounts _ _ _ _ hbase _ _ _ gf h
      · split at h
        · exact lybuntYearLoop_amounts _ _ _ hbase _ _ _ gf h
        · split at h
          · exact sybuntYearLoop_amounts _ _ _ _ hbase _ _ _ gf h
          · split at h
            · exact sporadicLoop_amounts _ _ _ hbase _ _ gf h
            · split at h
              · refine upgradeYearLoop_amounts _ _ _ _ _ _ _ ?_ gf h
                have hys := randInt_le 4 10 (uniformQ (1/100) (5/100) g).2 (by norm_num)
                have hmono : ((7:ℚ)/10)^10 ≤
                    (7/10)^(randInt 4 10 (uniformQ (1/100) (5/100) g).2).1 :=
                  pow_le_pow_of_le_one (by norm_num) (by norm_num) hys
                have hval : ((7:ℚ)/10)^10 = 282475249/10000000000 := by norm_num
                nlinarith [hmono, hval, hbase]
              · split at h
                · refine downgradeYearLoop_amounts _ _ _ _ _ _ _ ?_ gf h
                  nlinarith
                · exact consistentYearLoop_amounts _ _ _ _ hbase _ _ _ gf h

/-- Witness for C9 on a concrete constituent with capacity 1000. -/
theorem gift_amounts_positive_witness :
    ((generate_gifts_for_constituent cDemoNewDonor ⟨streamOfList [], 0⟩).1).Forall
      fun gf => 0 < gf.amount :=
  gift_amounts_positive cDemoNewDonor ⟨streamOfList [], 0⟩ (by norm_num [cDemoNewDonor])

/- ## C4 — identifier deduplication -/

theorem freshIdLoop_some {α : Type} (getId : α → String) (regen : α → Nat → α)
    (seen : List String) (Q : α → Prop)
    (hregen : ∀ x n, 100 ≤ n → n ≤ 999 → Q x → Q (regen x n)) :
    ∀ fuel a g a2 g2, Q a → freshIdLoop getId regen seen fuel a g = some (a2, g2) →
      Q a2 ∧ getId a2 ∉ seen := by
  intro fuel
  induction fuel with
  | zero =>
    intro a g a2 g2 hQ h
    simp only [freshIdLoop] at h
    split at h
    · exact absurd h (by simp)
    · rename_i hni
      simp only [Option.some.injEq, Prod.mk.injEq] at h
      obtain ⟨h1, h2⟩ := h
      subst h1
      exact ⟨hQ, hni⟩
  | succ fuel ih =>
    intro a g a2 g2 hQ h
    simp only [freshIdLoop] at h
    split at h
    · exact ih _ _ _ _
        (hregen _ _ (randInt_ge 100 999 g) (randInt_le 100 999 g (by norm_num)) hQ) h
    · rename_i hni
      simp only [Option.some.injEq, Prod.mk.injEq] at h
      obtain ⟨h1, h2⟩ := h
      subst h1
      exact ⟨hQ, hni⟩

theorem dedupLoop_some {α : Type} (getId : α → String) (regen : α → Nat → α)
    (R : α → α → Prop) (hrefl : ∀ a, R a a)
    (hregen : ∀ a x n, 100 ≤ n → n ≤ 999 → R a x → R a (regen x n)) :
    ∀ l fuel seen g l2 g2, dedupLoop getId regen fuel l seen g = some (l2, g2) →
      (l2.map getId).Nodup ∧ (∀ s ∈ seen, s ∉ l2.map getId) ∧ List.Forall₂ R l l2 := by
  intro l
  induction l with
  | nil =>
    intro fuel seen g l2 g2 h
    simp only [dedupLoop, Option.some.injEq, Prod.mk.injEq] at h
    obtain ⟨h1, h2⟩ := h
    subst h1
    exact ⟨by simp, by simp, List.Forall₂.nil⟩
  | cons a rest ih =>
    intro fuel seen g l2 g2 h
    simp only [dedupLoop] at h
    split at h
    · exact absurd h (by simp)
    · rename_i p a2 g2x hf
      split at h
      · exact absurd h (by simp)
      · rename_i q l2x g3 hd
        simp only [Option.some.injEq, Prod.mk.injEq] at h
        obtain ⟨h1, h2⟩ := h
        subst h1
        have hfr := freshIdLoop_some getId regen seen (fun x => R a x)
          (fun x n hn1 hn2 hx => hregen a x n hn1 hn2 hx) fuel a g a2 g2x (hrefl a) hf
        have hdr := ih fuel (getId a2 :: seen) g2x l2x g3 hd
        refine ⟨?_, ?_, ?_⟩
        · simp only [List.map_cons, List.nodup_cons]
          exact ⟨hdr.2.1 _ (by simp), hdr.1⟩
        · intro s hs
          simp only [List.map_cons, List.mem_cons]
          rintro (hh | hh)
          · subst hh; exact hfr.2 hs
          · exact hdr.2.1 s (by simp [hs]) hh
        · exact List.Forall₂.cons hfr.1 hdr.2.2

/-- `b` agrees with the gift `a` on every field except possibly the
identifier, and any new identifier is `G-<constituent>-<n>` with a
regenerated random suffix `n ∈ [100, 999]`. -/
def sameGiftExceptId (a b : Gift) : Prop :=
  b.constituent_id = a.constituent_id ∧ b.amount = a.amount ∧
  b.gift_date = a.gift_date ∧ b.gift_type = a.gift_type ∧
  b.fund_name = a.fund_name ∧ b.fund_code = a.fund_code ∧
  b.campaign = a.campaign ∧ b.appeal = a.appeal ∧
  b.recognition_amount = a.recognition_amount ∧
  b.is_anonymous = a.is_anonymous ∧ b.is_matching = a.is_matching ∧
  b.matching_company = a.matching_company ∧ b.tribute_type = a.tribute_type ∧
  b.tribute_name = a.tribute_name ∧
  (b.gift_id = a.gift_id ∨
    ∃ n, 100 ≤ n ∧ n ≤ 999 ∧ b.gift_id = mk_gift_id a.constituent_id n)

/-- Contact analogue of `sameGiftExceptId`. -/
def sameContactExceptId (a b : ContactRec) : Prop :=
  b.constituent_id = a.constituent_id ∧ b.contact_date = a.contact_date ∧
  b.contact_type = a.contact_type ∧ b.subject = a.subject ∧
  b.notes = a.notes ∧ b.outcome = a.outcome ∧ b.next_action = a.next_action ∧
  b.next_action_date = a.next_action_date ∧
  (b.contact_id = a.contact_id ∨
    ∃ n, 100 ≤ n ∧ n ≤ 999 ∧ b.contact_id = mk_contact_id a.constituent_id n)

theorem sameGiftExceptId_refl (a : Gift) : sameGiftExceptId a a := by
  refine ⟨rfl, rfl, rfl, rfl, rfl, rfl, rfl, rfl, rfl, rfl, rfl, rfl, rfl, rfl, Or.inl rfl⟩

theorem sameGiftExceptId_regen (a x : Gift) (n : Nat) (h1 : 100 ≤ n) (h2 : n ≤ 999)
    (h : sameGiftExceptId a x) : sameGiftExceptId a (regenGift x n) := by
  obtain ⟨hc, hrest⟩ := h
  exact ⟨hc, hrest.1, hrest.2.1, hrest.2.2.1, hrest.2.2.2.1, hrest.2.2.2.2.1,
    hrest.2.2.2.2.2.1, hrest.2.2.2.2.2.2.1, hrest.2.2.2.2.2.2.2.1,
    hrest.2.2.2.2.2.2.2.2.1, hrest.2.2.2.2.2.2.2.2.2.1,
    hrest.2.2.2.2.2.2.2.2.2.2.1, hrest.2.2.2.2.2.2.2.2.2.2.2.1,
    hrest.2.2.2.2.2.2.2.2.2.2.2.2.1,
    Or.inr ⟨n, h1, h2, by simp only [regenGift, hc]⟩⟩

theorem sameContactExceptId_refl (a : ContactRec) : sameContactExceptId a a :=
  ⟨rfl, rfl, rfl, rfl, rfl, rfl, rfl, rfl, Or.inl rfl⟩

theorem sameContactExceptId_regen (a x : ContactRec) (n : Nat) (h1 : 100 ≤ n)
    (h2 : n ≤ 999) (h : sameContactExceptId a x) :
    sameContactExceptId a (regenContact x n) := by
  obtain ⟨hc, hrest⟩ := h
  exact ⟨hc, hrest.1, hrest.2.1, hrest.2.2.1, hrest.2.2.2.1, hrest.2.2.2.2.1,
    hrest.2.2.2.2.2.1, hrest.2.2.2.2.2.2.1,
    Or.inr ⟨n, h1, h2, by simp only [regenContact, hc]⟩⟩

/-- C4: after assembly, the deduplication passes leave every gift
identifier unique within the gift collection and every contact
identifier unique within the contact collection; colliding records are
kept (the collections' lengths and record order are unchanged) with
only the identifier's random numeric suffix regenerated. -/
theorem dedup_ids_unique (fuel : Nat) (gl : List Gift) (cl : List ContactRec)
    (g1 g2 : RNG) (gl2 : List Gift) (g1b : RNG) (cl2 : List ContactRec) (g2b : RNG)
    (hg : dedupGifts fuel gl g1 = some (gl2, g1b))
    (hc : dedupContacts fuel cl g2 = some (cl2, g2b)) :
    ((gl2.map Gift.gift_id).Nodup ∧ gl2.length = gl.length ∧
      List.Forall₂ sameGiftExceptId gl gl2) ∧
    ((cl2.map ContactRec.contact_id).Nodup ∧ cl2.length = cl.length ∧
      List.Forall₂ sameContactExceptId cl cl2) := by
  have h1 := dedupLoop_some Gift.gift_id regenGift sameGiftExceptId
    sameGiftExceptId_refl (fun a x n u v w => sameGiftExceptId_regen a x n u v w)
    gl fuel [] g1 gl2 g1b hg
  have h2 := dedupLoop_some ContactRec.contact_id regenContact sameContactExceptId
    sameContactExceptId_refl (fun a x n u v w => sameContactExceptId_regen a x n u v w)
    cl fuel [] g2 cl2 g2b hc
  exact ⟨⟨h1.1, (List.Forall₂.length_eq h1.2.2).symm, h1.2.2⟩,
    ⟨h2.1, (List.Forall₂.length_eq h2.2.2).symm, h2.2.2⟩⟩

/-- A concrete gift whose identifier will collide with its duplicate. -/
def gDemo : Gift :=
  { gift_id := mk_gift_id "LU-00001" 100, constituent_id := "LU-00001", amount := 10,
    gift_date := 9000, gift_type := "Check", fund_name := "", fund_code := "",
    campaign := "", appeal := "", recognition_amount := 10, is_anonymous := false,
    is_matching := false, matching_company := "", tribute_type := "", tribute_name := "" }

/-- A concrete contact whose identifier will collide with its duplicate. -/
def ctDemo : ContactRec :=
  { contact_id := mk_contact_id "LU-00001" 100, constituent_id := "LU-00001",
    contact_date := 9000, contact_type := "call", subject := "", notes := "",
    outcome := "neutral", next_action := "", next_action_date := none }

/-- Witness for C4 on a two-element collision in each collection: the
first regeneration draw (0, giving suffix 100) still collides, the
second (1, giving suffix 101) resolves it, and both records survive. -/
theorem dedup_ids_unique_witness :
    ((([gDemo, regenGift gDemo 101].map Gift.gift_id).Nodup ∧
      [gDemo, regenGift gDemo 101].length = [gDemo, gDemo].length ∧
      List.Forall₂ sameGiftExceptId [gDemo, gDemo] [gDemo, regenGift gDemo 101]) ∧
     (([ctDemo, regenContact ctDemo 101].map ContactRec.contact_id).Nodup ∧
      [ctDemo, regenContact ctDemo 101].length = [ctDemo, ctDemo].length ∧
      List.Forall₂ sameContactExceptId [ctDemo, ctDemo] [ctDemo, regenContact ctDemo 101])) :=
  dedup_ids_unique 3 [gDemo, gDemo] [ctDemo, ctDemo]
    ⟨streamOfList [0, 1], 0⟩ ⟨streamOfList [0, 1], 0⟩
    [gDemo, regenGift gDemo 101] ⟨streamOfList [0, 1], 2⟩
    [ctDemo, regenContact ctDemo 101] ⟨streamOfList [0, 1], 2⟩ rfl rfl

/- ## C6 — the new_donor profile (corrected) -/

/-- Draws steering the `new_donor` branch to `start = anchor - 730`,
3 gifts, and per-iteration spacing draws 60, 180, 60: the gift dates
come out as `start`, `start + 180`, `start + 120`. -/
def drawsNewDonor : List Nat :=
  [0, 700, 2,
   0, 0, 0, 0, 999999, 999999, 999999, 0, 0, 0,
   120, 0, 0, 0, 999999, 999999, 999999, 1, 0, 0,
   0, 0, 0, 0, 999999, 999999, 999999, 2, 0, 0]

/-- C6 counterexample: the spacing draw is taken fresh every iteration
and multiplied by the loop index (`start + i * randint(60, 180)`), so
consecutive gifts need not be 60–180 days apart.  On this reachable
run the three gifts are dated 8795, 8975 and 8915: the third gift
falls 60 days BEFORE the second, refuting the claim that consecutive
gifts are spaced 60–180 days apart. -/
theorem new_donor_spacing_counterexample :
    ((generate_gifts_for_constituent cDemoNewDonor
        ⟨streamOfList drawsNewDonor, 0⟩).1.map Gift.gift_date = [8795, 8975, 8915]) ∧
    8915 < 8975 := by
  refine ⟨?_, by norm_num⟩
  norm_num [generate_gifts_for_constituent, newDonorLoop, create_gift, choiceD,
    weightedChoice, pickCum, randFloat, randInt, uniformQ, RNG.next, streamOfList,
    giftTypeWeights, FUNDS, CAMPAIGNS, APPEALS, toDays, leapsBefore, daysBeforeMonth,
    monthOffset, isLeap, mk_gift_id, anchorDays, cDemoNewDonor, drawsNewDonor,
    List.getD, ndNe1, ndNe2, tyNe1, tyNe2]

theorem newDonorLoop_spec (startDay : Nat) (base : ℚ) (cid ctype : String)
    (hstart : startDay ≤ anchorDays) :
    ∀ n i g,
      (newDonorLoop startDay base cid ctype n i g).1.length ≤ n ∧
      (1 ≤ n → i = 0 → 1 ≤ (newDonorLoop startDay base cid ctype n i g).1.length) ∧
      ∀ j gf, (newDonorLoop startDay base cid ctype n i g).1.get? j = some gf →
        ∃ r u, 60 ≤ r ∧ r ≤ 180 ∧ 8/10 ≤ u ∧ u ≤ 12/10 ∧
          gf.gift_date = startDay + (i + j) * r ∧
          gf.gift_date ≤ anchorDays ∧
          gf.amount = roundGiftAmount (base * u) := by
  intro n
  induction n with
  | zero =>
    intro i g
    refine ⟨by simp [newDonorLoop], by omega, ?_⟩
    intro j gf hget
    simp [newDonorLoop] at hget
  | succ n ih =>
    intro i g
    simp only [newDonorLoop]
    by_cases hguard : anchorDays < startDay + i * (randInt 60 180 g).1
    · rw [if_pos hguard]
      refine ⟨by simp, ?_, by intro j gf hget; simp at hget⟩
      intro h1 h0
      subst h0
      simp only [Nat.zero_mul, Nat.add_zero] at hguard
      omega
    · rw [if_neg hguard]
      obtain ⟨ihlen, _, ihget⟩ :=
        ih (i + 1) (create_gift cid (startDay + i * (randInt 60 180 g).1)
          (base * (uniformQ (8/10) (12/10) (randInt 60 180 g).2).1) ctype
          (uniformQ (8/10) (12/10) (randInt 60 180 g).2).2).2
      refine ⟨by simpa using ihlen, fun _ _ => by simp, ?_⟩
      intro j gf hget
      cases j with
      | zero =>
        simp only [List.get?_cons_zero, Option.some.injEq] at hget
        subst hget
        refine ⟨(randInt 60 180 g).1, (uniformQ (8/10) (12/10) (randInt 60 180 g).2).1,
          randInt_ge 60 180 g, randInt_le 60 180 g (by norm_num),
          uniformQ_ge _ _ _ (by norm_num), uniformQ_le _ _ _ (by norm_num), ?_, ?_, ?_⟩
        · rw [create_gift_date]; simp
        · rw [create_gift_date]; omega
        · rw [create_gift_amount]
      | succ j =>
        simp only [List.get?_cons_succ] at hget
        obtain ⟨r, u, hr1, hr2, hu1, hu2, hd1, hd2, ha⟩ := ihget j gf hget
        refine ⟨r, u, hr1, hr2, hu1, hu2, ?_, hd2, ha⟩
        rw [hd1]
        ring_nf

/-- C6 (amended): for a `new_donor` constituent the synthesizer draws a
start 30–730 days before the anchor and a target count of 1–3 gifts;
the `j`-th emitted gift (0-based) is dated `start + j * r_j` for a
spacing draw `r_j ∈ [60, 180]` taken fresh each iteration (so the
second gift is 60–180 days after the first, but later consecutive
spacings need not lie in that range); each amount is
`base × uniform(0.8, 1.2)` for `base = capacity × uniform(0.01, 0.05)`;
at least one gift is emitted, and generation stops early before any
date past the anchor. -/
theorem new_donor_gifts_amended (c : Constituent) (g : RNG)
    (hp : c.profile = "new_donor") :
    ∃ dd k u0, 30 ≤ dd ∧ dd ≤ 730 ∧ 1 ≤ k ∧ k ≤ 3 ∧
      1/100 ≤ u0 ∧ u0 ≤ 5/100 ∧
      1 ≤ (generate_gifts_for_constituent c g).1.length ∧
      (generate_gifts_for_constituent c g).1.length ≤ k ∧
      ∀ j gf, (generate_gifts_for_constituent c g).1.get? j = some gf →
        ∃ r u, 60 ≤ r ∧ r ≤ 180 ∧ 8/10 ≤ u ∧ u ≤ 12/10 ∧
          gf.gift_date = (anchorDays - dd) + j * r ∧
          gf.gift_date ≤ anchorDays ∧
          gf.amount = roundGiftAmount (c.estimated_capacity * u0 * u) := by
  simp only [generate_gifts_for_constituent, hp, beq_iff_eq, if_true]
  obtain ⟨hlen, hone, hget⟩ :=
    newDonorLoop_spec
      (anchorDays - (randInt 30 730 (uniformQ (1/100) (5/100) g).2).1)
      (c.estimated_capacity * (uniformQ (1/100) (5/100) g).1)
      c.constituent_id c.constituent_type (Nat.sub_le _ _)
      (randInt 1 3 (randInt 30 730 (uniformQ (1/100) (5/100) g).2).2).1 0
      (randInt 1 3 (randInt 30 730 (uniformQ (1/100) (5/100) g).2).2).2
  refine ⟨(randInt 30 730 (uniformQ (1/100) (5/100) g).2).1,
    (randInt 1 3 (randInt 30 730 (uniformQ (1/100) (5/100) g).2).2).1,
    (uniformQ (1/100) (5/100) g).1,
    randInt_ge _ _ _, randInt_le _ _ _ (by norm_num),
    randInt_ge _ _ _, randInt_le _ _ _ (by norm_num),
    uniformQ_ge _ _ _ (by norm_num), uniformQ_le _ _ _ (by norm_num),
    hone (randInt_ge 1 3 _) rfl, hlen, ?_⟩
  intro j gf hg2
  obtain ⟨r, u, hr1, hr2, hu1, hu2, hd1, hd2, ha⟩ := hget j gf hg2
  exact ⟨r, u, hr1, hr2, hu1, hu2, by simpa using hd1, hd2, ha⟩

/-- Witness for the amended C6 on the concrete counterexample run. -/
theorem new_donor_gifts_amended_witness :
    ∃ dd k u0, 30 ≤ dd ∧ dd ≤ 730 ∧ 1 ≤ k ∧ k ≤ 3 ∧
      1/100 ≤ u0 ∧ u0 ≤ 5/100 ∧
      1 ≤ (generate_gifts_for_constituent cDemoNewDonor
            ⟨streamOfList drawsNewDonor, 0⟩).1.length ∧
      (generate_gifts_for_constituent cDemoNewDonor
        ⟨streamOfList drawsNewDonor, 0⟩).1.length ≤ k ∧
      ∀ j gf, (generate_gifts_for_constituent cDemoNewDonor
          ⟨streamOfList drawsNewDonor, 0⟩).1.get? j = some gf →
        ∃ r u, 60 ≤ r ∧ r ≤ 180 ∧ 8/10 ≤ u ∧ u ≤ 12/10 ∧
          gf.gift_date = (anchorDays - dd) + j * r ∧
          gf.gift_date ≤ anchorDays ∧
          gf.amount = roundGiftAmount
            (cDemoNewDonor.estimated_capacity * u0 * u) :=
  new_donor_gifts_amended cDemoNewDonor ⟨streamOfList drawsNewDonor, 0⟩ rfl

/- ## C7 — the downgrading profile (corrected) -/

/-- Draws steering the `downgrading` branch to 5 years of history with
one gift in each of the years 2026–2023 and two gifts in 2022
(year-offset 4). -/
def drawsDowngrading : List Nat :=
  [0, 1,
   0, 0, 0, 0, 0, 999999, 999999, 999999, 0, 0, 0,
   0, 0, 0, 0, 0, 0, 999999, 999999, 999999, 1, 0, 0,
   0, 0, 0, 0, 0, 0, 999999, 999999, 999999, 2, 0, 0,
   0, 0, 0, 0, 0, 0, 999999, 999999, 999999, 3, 0, 0,
   1, 0, 0, 0, 0, 0, 999999, 999999, 999999, 4, 0, 0,
   0, 0, 0, 0, 0, 999999, 999999, 999999, 5, 0, 0]

set_option maxRecDepth 10000 in
set_option maxHeartbeats 4000000 in
/-- C7 counterexample: the `downgrading` branch draws its per-year gift
count as `randint(1, 2)` every year, with no decay to 1 gift/year
after year-offset 3.  On this reachable run the gift dates are
2026-01-01, 2025-01-01, 2024-01-01, 2023-01-01 and twice 2022-01-01:
the year at offset 4 (2022) holds two gifts, where the upgrading
schedule — which the claim says downgrading shares — would mandate
exactly one. -/
theorem downgrading_schedule_counterexample :
    ((generate_gifts_for_constituent cDemoDowngrading
        ⟨streamOfList drawsDowngrading, 0⟩).1.map Gift.gift_date
      = [9497, 9132, 8766, 8401, 8036, 8036]) ∧
    (([9497, 9132, 8766, 8401, 8036, 8036].filter
        (fun d => decide (toDays 2022 1 1 ≤ d) && decide (d ≤ toDays 2022 12 31))).length
      = 2) := by
  refine ⟨?_, by decide⟩
  norm_num [generate_gifts_for_constituent, downgradeYearLoop, guardedYearGifts,
    create_gift, choiceD, weightedChoice, pickCum, randFloat, randInt, uniformQ,
    RNG.next, streamOfList, giftTypeWeights, FUNDS, CAMPAIGNS, APPEALS, toDays,
    leapsBefore, daysBeforeMonth, monthOffset, isLeap, mk_gift_id, anchorDays,
    cDemoDowngrading, cDemoNewDonor, drawsDowngrading, List.getD,
    dgNe1, dgNe2, dgNe3, dgNe4, dgNe5, dgNe6, dgNe7, tyNe1, tyNe2]

theorem guardedYearGifts_len (year : Nat) (base mult : ℚ) (cid ctype : String)
    (hy : year ≤ 2026) :
    ∀ cnt g, (guardedYearGifts year base mult cid ctype cnt g).1.length = cnt := by
  intro cnt
  induction cnt with
  | zero => intro g; simp [guardedYearGifts]
  | succ k ih =>
    intro g
    simp only [guardedYearGifts]
    by_cases hm : year < 2026
    · rw [if_pos hm]
      have hguard : ¬ anchorDays <
          toDays year (randInt 1 12 g).1 (randInt 1 28 (randInt 1 12 g).2).1 := by
        have := toDays_le_of_year_le_2025 year (randInt 1 12 g).1
          (randInt 1 28 (randInt 1 12 g).2).1 (by omega) (randInt_le 1 28 _ (by norm_num))
        omega
      rw [if_neg hguard]
      simp [ih]
    · rw [if_neg hm]
      have hy26 : year = 2026 := by omega
      subst hy26
      dsimp only
      have hguard : ¬ anchorDays < toDays 2026 1 (randInt 1 28 g).1 := by
        have h1 := toDays_2026_jan_le (randInt 1 28 g).1 (randInt_le 1 28 g (by norm_num))
        have h2 : anchorDays = 9525 := anchorDays_eq
        omega
      rw [if_neg hguard]
      simp [ih]

theorem guardedYearGifts_mem (year : Nat) (base mult : ℚ) (cid ctype : String)
    (hy : year ≤ 2026) :
    ∀ cnt g, ∀ gf ∈ (guardedYearGifts year base mult cid ctype cnt g).1,
      ∃ m d u, 1 ≤ m ∧ m ≤ 12 ∧ (year = 2026 → m = 1) ∧ 1 ≤ d ∧ d ≤ 28 ∧
        9/10 ≤ u ∧ u ≤ 11/10 ∧ gf.gift_date = toDays year m d ∧
        gf.amount = roundGiftAmount (base * mult * u) := by
  intro cnt
  induction cnt with
  | zero => intro g gf h; simp [guardedYearGifts] at h
  | succ k ih =>
    intro g gf h
    simp only [guardedYearGifts] at h
    by_cases hm : year < 2026
    · rw [if_pos hm] at h
      split at h
      · exact ih _ gf h
      · simp only [List.mem_cons] at h
        rcases h with h | h
        · subst h
          exact ⟨(randInt 1 12 g).1, (randInt 1 28 (randInt 1 12 g).2).1,
            (uniformQ (9/10) (11/10) (randInt 1 28 (randInt 1 12 g).2).2).1,
            randInt_ge _ _ _, randInt_le _ _ _ (by norm_num), by omega,
            randInt_ge _ _ _, randInt_le _ _ _ (by norm_num),
            uniformQ_ge _ _ _ (by norm_num), uniformQ_le _ _ _ (by norm_num),
            create_gift_date _ _ _ _ _, create_gift_amount _ _ _ _ _⟩
        · exact ih _ gf h
    · rw [if_neg hm] at h
      have hy26 : year = 2026 := by omega
      subst hy26
      dsimp only at h
      split at h
      · exact ih _ gf h
      · simp only [List.mem_cons] at h
        rcases h with h | h
        · subst h
          exact ⟨1, (randInt 1 28 g).1,
            (uniformQ (9/10) (11/10) (randInt 1 28 g).2).1,
            le_refl 1, by norm_num, fun _ => rfl,
            randInt_ge _ _ _, randInt_le _ _ _ (by norm_num),
            uniformQ_ge _ _ _ (by norm_num), uniformQ_le _ _ _ (by norm_num),
            create_gift_date _ _ _ _ _, create_gift_amount _ _ _ _ _⟩
        · exact ih _ gf h

theorem downgradeYearLoop_len (base : ℚ) (cid ctype : String) :
    ∀ n offset mult g, offset + n ≤ 11 →
      n ≤ (downgradeYearLoop base cid ctype n offset mult g).1.length ∧
      (downgradeYearLoop base cid ctype n offset mult g).1.length ≤ 2 * n := by
  intro n
  induction n with
  | zero => intro o m g h; simp [downgradeYearLoop]
  | succ n ih =>
    intro o m g h
    simp only [downgradeYearLoop]
    rw [if_neg (by omega : ¬ 2026 - o < 2015)]
    have hk1 := randInt_ge 1 2 g
    have hk2 := randInt_le 1 2 g (by norm_num)
    have hlen := guardedYearGifts_len (2026 - o) base m cid ctype (by omega)
      (randInt 1 2 g).1 (randInt 1 2 g).2
    have hrec := ih (o + 1) (m * (13/10))
      (guardedYearGifts (2026 - o) base m cid ctype (randInt 1 2 g).1 (randInt 1 2 g).2).2
      (by omega)
    simp only [List.length_append]
    omega

theorem downgradeYearLoop_mem (base : ℚ) (cid ctype : String) :
    ∀ n offset mult g, offset + n ≤ 11 →
      ∀ gf ∈ (downgradeYearLoop base cid ctype n offset mult g).1,
        ∃ j m d u, j < n ∧ 1 ≤ m ∧ m ≤ 12 ∧ (offset + j = 0 → m = 1) ∧
          1 ≤ d ∧ d ≤ 28 ∧ 9/10 ≤ u ∧ u ≤ 11/10 ∧
          gf.gift_date = toDays (2026 - (offset + j)) m d ∧
          gf.amount = roundGiftAmount (base * (mult * (13/10)^j) * u) := by
  intro n
  induction n with
  | zero => intro o m g h gf hm; simp [downgradeYearLoop] at hm
  | succ n ih =>
    intro o m g hle gf hm
    simp only [downgradeYearLoop] at hm
    rw [if_neg (by omega : ¬ 2026 - o < 2015)] at hm
    simp only [List.mem_append] at hm
    rcases hm with hm | hm
    · obtain ⟨mm, d, u, h1, h2, h3, h4, h5, h6, h7, h8, h9⟩ :=
        guardedYearGifts_mem (2026 - o) base m cid ctype (by omega) _ _ gf hm
      refine ⟨0, mm, d, u, by omega, h1, h2, ?_, h4, h5, h6, h7, ?_, ?_⟩
      · intro h0
        exact h3 (by omega)
      · simpa using h8
      · rw [h9]
        congr 1
        ring
    · obtain ⟨j, mm, d, u, hj, h1, h2, h3, h4, h5, h6, h7, h8, h9⟩ :=
        ih (o + 1) (m * (13/10)) _ (by omega) gf hm
      refine ⟨j + 1, mm, d, u, by omega, h1, h2, by omega, h4, h5, h6, h7, ?_, ?_⟩
      · rw [h8, show o + 1 + j = o + (j + 1) by omega]
      · rw [h9]
        congr 1
        ring

/-- C7 (amended): the `downgrading` profile shares the upgrading
profile's 4–10-year history range and date placement (year
`2026 - k`, January only in the anchor year, days 1–28) and multiplies
the amount multiplier by 1.3 per year going backward (earliest years
are largest), but its per-year gift count is drawn as `randint(1, 2)`
afresh every year — it does NOT share the upgrading profile's
decay-to-1-gift-per-year schedule after year-offset 3 (nor its 1–3
range in the early offsets), so the total gift count lies between
`years` and `2 × years`. -/
theorem downgrading_gifts_amended (c : Constituent) (g : RNG)
    (hp : c.profile = "downgrading") :
    ∃ years u0, 4 ≤ years ∧ years ≤ 10 ∧ 1/100 ≤ u0 ∧ u0 ≤ 5/100 ∧
      years ≤ (generate_gifts_for_constituent c g).1.length ∧
      (generate_gifts_for_constituent c g).1.length ≤ 2 * years ∧
      ∀ gf ∈ (generate_gifts_for_constituent c g).1,
        ∃ k m d u, k < years ∧ 1 ≤ m ∧ m ≤ 12 ∧ (k = 0 → m = 1) ∧
          1 ≤ d ∧ d ≤ 28 ∧ 9/10 ≤ u ∧ u ≤ 11/10 ∧
          gf.gift_date = toDays (2026 - k) m d ∧
          gf.amount = roundGiftAmount
            (c.estimated_capacity * u0 * ((13/10)^k * u)) := by
  simp only [generate_gifts_for_constituent, hp, beq_iff_eq, if_true]
  have hys1 := randInt_ge 4 10 (uniformQ (1/100) (5/100) g).2
  have hys2 := randInt_le 4 10 (uniformQ (1/100) (5/100) g).2 (by norm_num)
  obtain ⟨hlo, hhi⟩ := downgradeYearLoop_len
    (c.estimated_capacity * (uniformQ (1/100) (5/100) g).1)
    c.constituent_id c.constituent_type
    (randInt 4 10 (uniformQ (1/100) (5/100) g).2).1 0 1
    (randInt 4 10 (uniformQ (1/100) (5/100) g).2).2 (by omega)
  refine ⟨(randInt 4 10 (uniformQ (1/100) (5/100) g).2).1,
    (uniformQ (1/100) (5/100) g).1, hys1, hys2,
    uniformQ_ge _ _ _ (by norm_num), uniformQ_le _ _ _ (by norm_num),
    hlo, hhi, ?_⟩
  intro gf hmem
  obtain ⟨j, mm, d, u, hj, h1, h2, h3, h4, h5, h6, h7, h8, h9⟩ :=
    downgradeYearLoop_mem
      (c.estimated_capacity * (uniformQ (1/100) (5/100) g).1)
      c.constituent_id c.constituent_type
      (randInt 4 10 (uniformQ (1/100) (5/100) g).2).1 0 1
      (randInt 4 10 (uniformQ (1/100) (5/100) g).2).2 (by omega) gf hmem
  refine ⟨j, mm, d, u, hj, h1, h2, ?_, h4, h5, h6, h7, ?_, ?_⟩
  · intro h0
    exact h3 (by omega)
  · simpa using h8
  · rw [h9]
    congr 1
    ring

/-- Witness for the amended C7 on the concrete counterexample run. -/
theorem downgrading_gifts_amended_witness :
    ∃ years u0, 4 ≤ years ∧ years ≤ 10 ∧ 1/100 ≤ u0 ∧ u0 ≤ 5/100 ∧
      years ≤ (generate_gifts_for_constituent cDemoDowngrading
        ⟨streamOfList drawsDowngrading, 0⟩).1.length ∧
      (generate_gifts_for_constituent cDemoDowngrading
        ⟨streamOfList drawsDowngrading, 0⟩).1.length ≤ 2 * years ∧
      ∀ gf ∈ (generate_gifts_for_constituent cDemoDowngrading
          ⟨streamOfList drawsDowngrading, 0⟩).1,
        ∃ k m d u, k < years ∧ 1 ≤ m ∧ m ≤ 12 ∧ (k = 0 → m = 1) ∧
          1 ≤ d ∧ d ≤ 28 ∧ 9/10 ≤ u ∧ u ≤ 11/10 ∧
          gf.gift_date = toDays (2026 - k) m d ∧
          gf.amount = roundGiftAmount
            (cDemoDowngrading.estimated_capacity * u0 * ((13/10)^k * u)) :=
  downgrading_gifts_amended cDemoDowngrading ⟨streamOfList drawsDowngrading, 0⟩ rfl
